import Mathlib

/-!
Verification development for the FGP-TV CPU core
(`src/Core/regularizers_CPU/FGP_TV_core.c`).

The C core is embedded shallowly:

* `float` buffers become total functions from integer grid coordinates to
  real numbers (`Im2`, `Im3`); the C flat index `j*dimX + i` (plus
  `(dimX*dimY)*k` in 3D) corresponds to the coordinates `(i, j)`
  (resp. `(i, j, k)`).  A C routine that writes only the indices inside the
  grid is embedded as a function that takes the new value on the grid and
  keeps the old buffer contents outside it.
* C `int` scalars become `ℤ`; `float` scalars become `ℝ` (the usual exact
  idealization of float arithmetic; accumulation of the stopping sums is
  modelled as an exact finite sum).
* `malloc` returns indeterminate contents, so the driver takes the initial
  contents of every scratch buffer as explicit parameters (the source never
  zeroes them).
* The early-stopping comparison `re = sqrt(re)/sqrt(re1); if (re < epsil)`
  is embedded with an explicit zero-denominator branch: under IEEE
  semantics, when `re1 == 0` the division yields `+Inf` (numerator positive)
  or `NaN` (numerator zero), and `<` is false for both, so the counter is
  not incremented.  With a nonzero denominator the float expression is the
  real expression.
-/

namespace FGPTV

/-- A 2D image buffer: the C `float` buffer of `dimX*dimY` elements with flat
index `j*dimX + i`, modelled as a total function of the coordinates `(i, j)`. -/
abbrev Im2 : Type := ℤ → ℤ → ℝ

/-- A 3D volume buffer, flat index `(dimX*dimY)*k + j*dimX + i`, modelled as a
total function of `(i, j, k)`. -/
abbrev Im3 : Type := ℤ → ℤ → ℤ → ℝ

/-- The index `(i, j)` lies inside the 2D grid: `0 <= i < dimX`, `0 <= j < dimY`
(the ranges of the C loops `for(i=0;i<dimX;i++) for(j=0;j<dimY;j++)`). -/
abbrev inGrid2 (dimX dimY i j : ℤ) : Prop :=
  0 ≤ i ∧ i < dimX ∧ 0 ≤ j ∧ j < dimY

/-- The index `(i, j, k)` lies inside the 3D grid. -/
abbrev inGrid3 (dimX dimY dimZ i j k : ℤ) : Prop :=
  0 ≤ i ∧ i < dimX ∧ 0 ≤ j ∧ j < dimY ∧ 0 ≤ k ∧ k < dimZ

/-- `Obj_func2D(A, D, R1, R2, lambda, dimX, dimY)` (FGP_TV_core.c:160-174):
for every grid index, `D[index] = A[index] - lambda*(R1[index] + R2[index]
- val1 - val2)` with backward-difference boundary values
`val1 = (i==0) ? 0 : R1[j*dimX+(i-1)]`, `val2 = (j==0) ? 0 : R2[(j-1)*dimX+i]`.
Returns the new contents of `D`. -/
noncomputable def Obj_func2D (A D R1 R2 : Im2) (lambda : ℝ) (dimX dimY : ℤ) : Im2 :=
  fun i j =>
    if inGrid2 dimX dimY i j then
      let val1 := if i = 0 then 0 else R1 (i - 1) j
      let val2 := if j = 0 then 0 else R2 i (j - 1)
      A i j - lambda * (R1 i j + R2 i j - val1 - val2)
    else D i j

/-- `Grad_func2D(P1, P2, D, R1, R2, lambda, dimX, dimY)` (FGP_TV_core.c:175-191):
`multip = 1/(8*lambda)`; for every grid index,
`P1[index] = R1[index] + multip*val1`, `P2[index] = R2[index] + multip*val2`
with forward differences `val1 = (i==dimX-1) ? 0 : D[index] - D[j*dimX+(i+1)]`,
`val2 = (j==dimY-1) ? 0 : D[index] - D[(j+1)*dimX+i]`.
Returns the new contents of `(P1, P2)`. -/
noncomputable def Grad_func2D (P1 P2 D R1 R2 : Im2) (lambda : ℝ) (dimX dimY : ℤ) :
    Im2 × Im2 :=
  let multip := 1 / (8 * lambda)
  (fun i j =>
    if inGrid2 dimX dimY i j then
      let val1 := if i = dimX - 1 then 0 else D i j - D (i + 1) j
      R1 i j + multip * val1
    else P1 i j,
   fun i j =>
    if inGrid2 dimX dimY i j then
      let val2 := if j = dimY - 1 then 0 else D i j - D i (j + 1)
      R2 i j + multip * val2
    else P2 i j)

/-- `Proj_func2D(P1, P2, methTV, dimX, dimY)` (FGP_TV_core.c:192-225).
Isotropic (`methTV == 0`): `denom = P1[index]^2 + P2[index]^2`; if
`denom > 1` both components are multiplied by `sq_denom = 1/sqrt(denom)`.
Anisotropic (otherwise): `val1 = fabs(P1[index])`; `if (val1 < 1) val1 = 1`;
`P1[index] = P1[index]/val1`, and likewise for `P2`.
Returns the new contents of `(P1, P2)`. -/
noncomputable def Proj_func2D (P1 P2 : Im2) (methTV dimX dimY : ℤ) : Im2 × Im2 :=
  if methTV = 0 then
    (fun i j =>
      if inGrid2 dimX dimY i j then
        let denom := (P1 i j) ^ 2 + (P2 i j) ^ 2
        if 1 < denom then P1 i j * (1 / Real.sqrt denom) else P1 i j
      else P1 i j,
     fun i j =>
      if inGrid2 dimX dimY i j then
        let denom := (P1 i j) ^ 2 + (P2 i j) ^ 2
        if 1 < denom then P2 i j * (1 / Real.sqrt denom) else P2 i j
      else P2 i j)
  else
    (fun i j =>
      if inGrid2 dimX dimY i j then
        let val1 := |P1 i j|
        let val1 := if val1 < 1 then 1 else val1
        P1 i j / val1
      else P1 i j,
     fun i j =>
      if inGrid2 dimX dimY i j then
        let val2 := |P2 i j|
        let val2 := if val2 < 1 then 1 else val2
        P2 i j / val2
      else P2 i j)

/-- `Rupd_func2D(P1, P1_old, P2, P2_old, R1, R2, tkp1, tk, dimX, dimY)`
(FGP_TV_core.c:226-239): `multip = (tk-1)/tkp1`; for every grid index,
`R1[index] = P1[index] + multip*(P1[index] - P1_old[index])` and likewise for
`R2`.  Returns the new contents of `(R1, R2)`. -/
noncomputable def Rupd_func2D (P1 P1_old P2 P2_old R1 R2 : Im2) (tkp1 tk : ℝ)
    (dimX dimY : ℤ) : Im2 × Im2 :=
  let multip := (tk - 1) / tkp1
  (fun i j =>
    if inGrid2 dimX dimY i j then P1 i j + multip * (P1 i j - P1_old i j)
    else R1 i j,
   fun i j =>
    if inGrid2 dimX dimY i j then P2 i j + multip * (P2 i j - P2_old i j)
    else R2 i j)

/-- Modelled from the spec: `copyIm` (declared in the utils module, which is
not among the repository's staged source files) is the snapshot step of the
driver, "Snapshot Output into Output_prev and P_d into P_d_prev": it copies
the `dimX*dimY*dimZ` buffer elements, i.e. every grid position, from `A`
into `U`.  2D instance (`copyIm(A, U, dimX, dimY, 1)`). -/
noncomputable def copyIm2 (A U : Im2) (dimX dimY : ℤ) : Im2 :=
  fun i j => if inGrid2 dimX dimY i j then A i j else U i j

/-- The nonnegativity clamp of the driver (FGP_TV_core.c:68):
`for(j=0; j<dimX*dimY; j++) {if (Output[j] < 0.0f) Output[j] = 0.0f;}`. -/
noncomputable def clamp2D (D : Im2) (dimX dimY : ℤ) : Im2 :=
  fun i j => if inGrid2 dimX dimY i j ∧ D i j < 0 then 0 else D i j

/-- The scalar parameters of `TV_FGP_CPU(Input, Output, lambda, iter, epsil,
methodTV, nonneg, printM, dimX, dimY, dimZ)` (FGP_TV_core.c:40).  `printM`
only controls the diagnostic `printf` and has no effect on the computation. -/
structure Params where
  lambda : ℝ
  iter : ℤ
  epsil : ℝ
  methodTV : ℤ
  nonneg : ℤ
  printM : ℤ
  dimX : ℤ
  dimY : ℤ
  dimZ : ℤ

/-- The mutable store of the 2D code path of `TV_FGP_CPU`: the two caller
buffers, the seven malloc'ed scratch buffers, the momentum scalars `tk`,
`tkp1` and the stopping counter `count`. -/
structure State2D where
  Input : Im2
  Output : Im2
  Output_prev : Im2
  P1 : Im2
  P2 : Im2
  P1_prev : Im2
  P2_prev : Im2
  R1 : Im2
  R2 : Im2
  tk : ℝ
  tkp1 : ℝ
  count : ℤ

/-- `tkp1 = (1.0f + sqrt(1.0f + 4.0f*tk*tk))*0.5f` (FGP_TV_core.c:77,132). -/
noncomputable def tkp1Update (tk : ℝ) : ℝ :=
  (1 + Real.sqrt (1 + 4 * tk * tk)) * 0.5

/-- The array-updating phase of one 2D driver iteration (FGP_TV_core.c:65-78):
objective-function gradient, optional nonnegativity clamp, dual gradient
step, projection, and the `R` update with the freshly computed `tkp1`.
`tk` and `count` are not written here. -/
noncomputable def stepArrays2D (p : Params) (s : State2D) : State2D :=
  let D := Obj_func2D s.Input s.Output s.R1 s.R2 p.lambda p.dimX p.dimY
  let D := if p.nonneg = 1 then clamp2D D p.dimX p.dimY else D
  let P := Grad_func2D s.P1 s.P2 D s.R1 s.R2 p.lambda p.dimX p.dimY
  let Q := Proj_func2D P.1 P.2 p.methodTV p.dimX p.dimY
  let t := tkp1Update s.tk
  let R := Rupd_func2D Q.1 s.P1_prev Q.2 s.P2_prev s.R1 s.R2 t s.tk p.dimX p.dimY
  { s with Output := D, P1 := Q.1, P2 := Q.2, R1 := R.1, R2 := R.2, tkp1 := t }

/-- The numerator sum of the stopping test (FGP_TV_core.c:82-86):
`re += pow(Output[j] - Output_prev[j], 2)` over every grid position (the flat
loop `for(j=0; j<dimX*dimY; j++)` enumerates exactly the grid). -/
noncomputable def resNum2D (p : Params) (s : State2D) : ℝ :=
  ∑ i in Finset.Ico 0 p.dimX, ∑ j in Finset.Ico 0 p.dimY,
    (s.Output i j - s.Output_prev i j) ^ 2

/-- The denominator sum of the stopping test (FGP_TV_core.c:82-86):
`re1 += pow(Output[j], 2)` over every grid position. -/
noncomputable def resDen2D (p : Params) (s : State2D) : ℝ :=
  ∑ i in Finset.Ico 0 p.dimX, ∑ j in Finset.Ico 0 p.dimY, (s.Output i j) ^ 2

/-- `re = sqrt(re)/sqrt(re1); if (re < epsil)` (FGP_TV_core.c:87-88) under
IEEE float semantics.  When `re1 == 0` the division yields `+Inf` (positive
numerator) or `NaN` (zero numerator) and the comparison `re < epsil` is false
for both, so we spell the zero-denominator case out; with `re1 != 0` the
float expression is the real expression. -/
def hit2D (p : Params) (s : State2D) : Prop :=
  resDen2D p s ≠ 0 ∧ Real.sqrt (resNum2D p s) / Real.sqrt (resDen2D p s) < p.epsil

/-- Classical decidability for the embedded comparison (the C program just
evaluates the float comparison). -/
noncomputable instance hit2D.dec (p : Params) (s : State2D) : Decidable (hit2D p s) :=
  Classical.propDecidable _

/-- The counter update `if (re < epsil) count++` (FGP_TV_core.c:88). -/
noncomputable def stepCount2D (p : Params) (s : State2D) : State2D :=
  if hit2D p s then { s with count := s.count + 1 } else s

/-- One 2D iteration body up to (and including) the counter update
(FGP_TV_core.c:65-88), i.e. everything before the `if (count > 4) break`. -/
noncomputable def body2D (p : Params) (s : State2D) : State2D :=
  stepCount2D p (stepArrays2D p s)

/-- The tail of the 2D iteration (FGP_TV_core.c:92-95), reached only when the
loop does not break: `copyIm` the three snapshots and `tk = tkp1`. -/
noncomputable def snapshot2D (p : Params) (s : State2D) : State2D :=
  { s with
    Output_prev := copyIm2 s.Output s.Output_prev p.dimX p.dimY
    P1_prev := copyIm2 s.P1 s.P1_prev p.dimX p.dimY
    P2_prev := copyIm2 s.P2 s.P2_prev p.dimX p.dimY
    tk := s.tkp1 }

/-- The 2D driver loop `for(ll=0; ll<iter; ll++)` (FGP_TV_core.c:62-96) with
the break `if (count > 4) break;` (FGP_TV_core.c:89), run on `n` remaining
loop slots.  Returns the final store and the number of loop-body executions
(the breaking iteration counts as executed; its snapshot phase is skipped by
the break, exactly as in the source). -/
noncomputable def loop2D (p : Params) : ℕ → State2D → State2D × ℕ
  | 0, s => (s, 0)
  | n + 1, s =>
    let t := body2D p s
    if 4 < t.count then (t, 1)
    else
      let r := loop2D p n (snapshot2D p t)
      (r.1, r.2 + 1)

/-- The store at entry of the 2D path: the caller's `Input` and `Output`
buffers and the *indeterminate* contents the seven `malloc` calls
(FGP_TV_core.c:53-59) hand over — the source never writes to them before the
loop.  `tk = 1.0f`, `tkp1 = 1.0f`, `count = 0` (FGP_TV_core.c:44-46). -/
def init2D (Input Output0 Output_prev0 P10 P20 P1_prev0 P2_prev0 R10 R20 : Im2) :
    State2D :=
  { Input := Input, Output := Output0, Output_prev := Output_prev0,
    P1 := P10, P2 := P20, P1_prev := P1_prev0, P2_prev := P2_prev0,
    R1 := R10, R2 := R20, tk := 1, tkp1 := 1, count := 0 }

/-- The 2D code path of `TV_FGP_CPU` (FGP_TV_core.c:48-99), selected by the
dispatch `if (dimZ <= 1)`:  run the driver loop for at most `iter` iterations
from the entry store.  Returns the final store and the number of iterations
executed. -/
noncomputable def TV_FGP_CPU_2D (p : Params)
    (Input Output0 Output_prev0 P10 P20 P1_prev0 P2_prev0 R10 R20 : Im2) :
    State2D × ℕ :=
  loop2D p p.iter.toNat
    (init2D Input Output0 Output_prev0 P10 P20 P1_prev0 P2_prev0 R10 R20)

/-- `return *Output` (FGP_TV_core.c:157): the first element of the Output
buffer, i.e. flat index 0, i.e. position `(0, 0)`. -/
noncomputable def TV_FGP_CPU_2D_ret (p : Params)
    (Input Output0 Output_prev0 P10 P20 P1_prev0 P2_prev0 R10 R20 : Im2) : ℝ :=
  (TV_FGP_CPU_2D p Input Output0 Output_prev0 P10 P20 P1_prev0 P2_prev0 R10 R20).1.Output 0 0

/-- `Obj_func3D(A, D, R1, R2, R3, lambda, dimX, dimY, dimZ)`
(FGP_TV_core.c:243-259): the 3D analogue of `Obj_func2D`, with the third
backward difference `val3 = (k==0) ? 0 : R3[(dimX*dimY)*(k-1)+j*dimX+i]`. -/
noncomputable def Obj_func3D (A D R1 R2 R3 : Im3) (lambda : ℝ) (dimX dimY dimZ : ℤ) : Im3 :=
  fun i j k =>
    if inGrid3 dimX dimY dimZ i j k then
      let val1 := if i = 0 then 0 else R1 (i - 1) j k
      let val2 := if j = 0 then 0 else R2 i (j - 1) k
      let val3 := if k = 0 then 0 else R3 i j (k - 1)
      A i j k - lambda * (R1 i j k + R2 i j k + R3 i j k - val1 - val2 - val3)
    else D i j k

/-- `Grad_func3D(P1, P2, P3, D, R1, R2, R3, lambda, dimX, dimY, dimZ)`
(FGP_TV_core.c:260-279): the 3D analogue of `Grad_func2D`. -/
noncomputable def Grad_func3D (P1 P2 P3 D R1 R2 R3 : Im3) (lambda : ℝ)
    (dimX dimY dimZ : ℤ) : Im3 × Im3 × Im3 :=
  let multip := 1 / (8 * lambda)
  (fun i j k =>
    if inGrid3 dimX dimY dimZ i j k then
      let val1 := if i = dimX - 1 then 0 else D i j k - D (i + 1) j k
      R1 i j k + multip * val1
    else P1 i j k,
   fun i j k =>
    if inGrid3 dimX dimY dimZ i j k then
      let val2 := if j = dimY - 1 then 0 else D i j k - D i (j + 1) k
      R2 i j k + multip * val2
    else P2 i j k,
   fun i j k =>
    if inGrid3 dimX dimY dimZ i j k then
      let val3 := if k = dimZ - 1 then 0 else D i j k - D i j (k + 1)
      R3 i j k + multip * val3
    else P3 i j k)

/-- `Proj_func3D(P1, P2, P3, methTV, dimX, dimY, dimZ)` (FGP_TV_core.c:280-319):
isotropic variant scales all three components by `1/sqrt(denom)` when
`denom = P1^2 + P2^2 + P3^2 > 1`; anisotropic variant clips each component
independently. -/
noncomputable def Proj_func3D (P1 P2 P3 : Im3) (methTV dimX dimY dimZ : ℤ) :
    Im3 × Im3 × Im3 :=
  if methTV = 0 then
    (fun i j k =>
      if inGrid3 dimX dimY dimZ i j k then
        let denom := (P1 i j k) ^ 2 + (P2 i j k) ^ 2 + (P3 i j k) ^ 2
        if 1 < denom then P1 i j k * (1 / Real.sqrt denom) else P1 i j k
      else P1 i j k,
     fun i j k =>
      if inGrid3 dimX dimY dimZ i j k then
        let denom := (P1 i j k) ^ 2 + (P2 i j k) ^ 2 + (P3 i j k) ^ 2
        if 1 < denom then P2 i j k * (1 / Real.sqrt denom) else P2 i j k
      else P2 i j k,
     fun i j k =>
      if inGrid3 dimX dimY dimZ i j k then
        let denom := (P1 i j k) ^ 2 + (P2 i j k) ^ 2 + (P3 i j k) ^ 2
        if 1 < denom then P3 i j k * (1 / Real.sqrt denom) else P3 i j k
      else P3 i j k)
  else
    (fun i j k =>
      if inGrid3 dimX dimY dimZ i j k then
        let val1 := |P1 i j k|
        let val1 := if val1 < 1 then 1 else val1
        P1 i j k / val1
      else P1 i j k,
     fun i j k =>
      if inGrid3 dimX dimY dimZ i j k then
        let val2 := |P2 i j k|
        let val2 := if val2 < 1 then 1 else val2
        P2 i j k / val2
      else P2 i j k,
     fun i j k =>
      if inGrid3 dimX dimY dimZ i j k then
        let val3 := |P3 i j k|
        let val3 := if val3 < 1 then 1 else val3
        P3 i j k / val3
      else P3 i j k)

/-- `Rupd_func3D(P1, P1_old, P2, P2_old, P3, P3_old, R1, R2, R3, tkp1, tk,
dimX, dimY, dimZ)` (FGP_TV_core.c:320-335). -/
noncomputable def Rupd_func3D (P1 P1_old P2 P2_old P3 P3_old R1 R2 R3 : Im3)
    (tkp1 tk : ℝ) (dimX dimY dimZ : ℤ) : Im3 × Im3 × Im3 :=
  let multip := (tk - 1) / tkp1
  (fun i j k =>
    if inGrid3 dimX dimY dimZ i j k then P1 i j k + multip * (P1 i j k - P1_old i j k)
    else R1 i j k,
   fun i j k =>
    if inGrid3 dimX dimY dimZ i j k then P2 i j k + multip * (P2 i j k - P2_old i j k)
    else R2 i j k,
   fun i j k =>
    if inGrid3 dimX dimY dimZ i j k then P3 i j k + multip * (P3 i j k - P3_old i j k)
    else R3 i j k)

/-- Modelled from the spec: 3D instance of the `copyIm` snapshot
(`copyIm(A, U, dimX, dimY, dimZ)` copies every grid position). -/
noncomputable def copyIm3 (A U : Im3) (dimX dimY dimZ : ℤ) : Im3 :=
  fun i j k => if inGrid3 dimX dimY dimZ i j k then A i j k else U i j k

/-- The 3D nonnegativity clamp (FGP_TV_core.c:123). -/
noncomputable def clamp3D (D : Im3) (dimX dimY dimZ : ℤ) : Im3 :=
  fun i j k => if inGrid3 dimX dimY dimZ i j k ∧ D i j k < 0 then 0 else D i j k

/-- The mutable store of the 3D code path of `TV_FGP_CPU`. -/
structure State3D where
  Input : Im3
  Output : Im3
  Output_prev : Im3
  P1 : Im3
  P2 : Im3
  P3 : Im3
  P1_prev : Im3
  P2_prev : Im3
  P3_prev : Im3
  R1 : Im3
  R2 : Im3
  R3 : Im3
  tk : ℝ
  tkp1 : ℝ
  count : ℤ

/-- The array-updating phase of one 3D driver iteration (FGP_TV_core.c:120-133). -/
noncomputable def stepArrays3D (p : Params) (s : State3D) : State3D :=
  let D := Obj_func3D s.Input s.Output s.R1 s.R2 s.R3 p.lambda p.dimX p.dimY p.dimZ
  let D := if p.nonneg = 1 then clamp3D D p.dimX p.dimY p.dimZ else D
  let P := Grad_func3D s.P1 s.P2 s.P3 D s.R1 s.R2 s.R3 p.lambda p.dimX p.dimY p.dimZ
  let Q := Proj_func3D P.1 P.2.1 P.2.2 p.methodTV p.dimX p.dimY p.dimZ
  let t := tkp1Update s.tk
  let R := Rupd_func3D Q.1 s.P1_prev Q.2.1 s.P2_prev Q.2.2 s.P3_prev s.R1 s.R2 s.R3
    t s.tk p.dimX p.dimY p.dimZ
  { s with
    Output := D
    P1 := Q.1
    P2 := Q.2.1
    P3 := Q.2.2
    R1 := R.1
    R2 := R.2.1
    R3 := R.2.2
    tkp1 := t }

/-- The numerator sum of the 3D stopping test (FGP_TV_core.c:136-141). -/
noncomputable def resNum3D (p : Params) (s : State3D) : ℝ :=
  ∑ i in Finset.Ico 0 p.dimX, ∑ j in Finset.Ico 0 p.dimY, ∑ k in Finset.Ico 0 p.dimZ,
    (s.Output i j k - s.Output_prev i j k) ^ 2

/-- The denominator sum of the 3D stopping test (FGP_TV_core.c:136-141). -/
noncomputable def resDen3D (p : Params) (s : State3D) : ℝ :=
  ∑ i in Finset.Ico 0 p.dimX, ∑ j in Finset.Ico 0 p.dimY, ∑ k in Finset.Ico 0 p.dimZ,
    (s.Output i j k) ^ 2

/-- `re = sqrt(re)/sqrt(re1); if (re < epsil)` (FGP_TV_core.c:142-144), with
the IEEE zero-denominator case spelled out as for `hit2D`. -/
def hit3D (p : Params) (s : State3D) : Prop :=
  resDen3D p s ≠ 0 ∧ Real.sqrt (resNum3D p s) / Real.sqrt (resDen3D p s) < p.epsil

/-- Classical decidability for the embedded comparison. -/
noncomputable instance hit3D.dec (p : Params) (s : State3D) : Decidable (hit3D p s) :=
  Classical.propDecidable _

/-- The counter update `if (re < epsil) count++` (FGP_TV_core.c:144). -/
noncomputable def stepCount3D (p : Params) (s : State3D) : State3D :=
  if hit3D p s then { s with count := s.count + 1 } else s

/-- One 3D iteration body up to the counter update (FGP_TV_core.c:120-144). -/
noncomputable def body3D (p : Params) (s : State3D) : State3D :=
  stepCount3D p (stepArrays3D p s)

/-- The tail of the 3D iteration (FGP_TV_core.c:148-152). -/
noncomputable def snapshot3D (p : Params) (s : State3D) : State3D :=
  { s with
    Output_prev := copyIm3 s.Output s.Output_prev p.dimX p.dimY p.dimZ
    P1_prev := copyIm3 s.P1 s.P1_prev p.dimX p.dimY p.dimZ
    P2_prev := copyIm3 s.P2 s.P2_prev p.dimX p.dimY p.dimZ
    P3_prev := copyIm3 s.P3 s.P3_prev p.dimX p.dimY p.dimZ
    tk := s.tkp1 }

/-- The 3D driver loop (FGP_TV_core.c:117-153) with the break at
FGP_TV_core.c:145. -/
noncomputable def loop3D (p : Params) : ℕ → State3D → State3D × ℕ
  | 0, s => (s, 0)
  | n + 1, s =>
    let t := body3D p s
    if 4 < t.count then (t, 1)
    else
      let r := loop3D p n (snapshot3D p t)
      (r.1, r.2 + 1)

/-- The store at entry of the 3D path (FGP_TV_core.c:105-114): the ten
`malloc` calls hand over indeterminate contents. -/
def init3D (Input Output0 Output_prev0 P10 P20 P30 P1_prev0 P2_prev0 P3_prev0
    R10 R20 R30 : Im3) : State3D :=
  { Input := Input, Output := Output0, Output_prev := Output_prev0,
    P1 := P10, P2 := P20, P3 := P30, P1_prev := P1_prev0, P2_prev := P2_prev0,
    P3_prev := P3_prev0, R1 := R10, R2 := R20, R3 := R30,
    tk := 1, tkp1 := 1, count := 0 }

/-- The 3D code path of `TV_FGP_CPU` (FGP_TV_core.c:100-156), selected by the
dispatch `if (dimZ <= 1)` being false. -/
noncomputable def TV_FGP_CPU_3D (p : Params)
    (Input Output0 Output_prev0 P10 P20 P30 P1_prev0 P2_prev0 P3_prev0
      R10 R20 R30 : Im3) : State3D × ℕ :=
  loop3D p p.iter.toNat
    (init3D Input Output0 Output_prev0 P10 P20 P30 P1_prev0 P2_prev0 P3_prev0 R10 R20 R30)

/-- `return *Output` (FGP_TV_core.c:157) on the 3D path: flat index 0, i.e.
position `(0, 0, 0)`. -/
noncomputable def TV_FGP_CPU_3D_ret (p : Params)
    (Input Output0 Output_prev0 P10 P20 P30 P1_prev0 P2_prev0 P3_prev0
      R10 R20 R30 : Im3) : ℝ :=
  (TV_FGP_CPU_3D p Input Output0 Output_prev0 P10 P20 P30 P1_prev0 P2_prev0 P3_prev0
    R10 R20 R30).1.Output 0 0 0

/-! ### Frame lemmas: which fields each phase writes (2D) -/

@[simp] lemma stepArrays2D_Input (p : Params) (s : State2D) :
    (stepArrays2D p s).Input = s.Input := rfl

@[simp] lemma stepArrays2D_Output_prev (p : Params) (s : State2D) :
    (stepArrays2D p s).Output_prev = s.Output_prev := rfl

@[simp] lemma stepArrays2D_P1_prev (p : Params) (s : State2D) :
    (stepArrays2D p s).P1_prev = s.P1_prev := rfl

@[simp] lemma stepArrays2D_P2_prev (p : Params) (s : State2D) :
    (stepArrays2D p s).P2_prev = s.P2_prev := rfl

@[simp] lemma stepArrays2D_count (p : Params) (s : State2D) :
    (stepArrays2D p s).count = s.count := rfl

@[simp] lemma stepArrays2D_tk (p : Params) (s : State2D) :
    (stepArrays2D p s).tk = s.tk := rfl

lemma stepArrays2D_Output (p : Params) (s : State2D) :
    (stepArrays2D p s).Output =
      (if p.nonneg = 1 then
        clamp2D (Obj_func2D s.Input s.Output s.R1 s.R2 p.lambda p.dimX p.dimY) p.dimX p.dimY
      else Obj_func2D s.Input s.Output s.R1 s.R2 p.lambda p.dimX p.dimY) := rfl

@[simp] lemma stepCount2D_Input (p : Params) (s : State2D) :
    (stepCount2D p s).Input = s.Input := by
  unfold stepCount2D; split <;> rfl

@[simp] lemma stepCount2D_Output (p : Params) (s : State2D) :
    (stepCount2D p s).Output = s.Output := by
  unfold stepCount2D; split <;> rfl

@[simp] lemma stepCount2D_Output_prev (p : Params) (s : State2D) :
    (stepCount2D p s).Output_prev = s.Output_prev := by
  unfold stepCount2D; split <;> rfl

@[simp] lemma stepCount2D_P1 (p : Params) (s : State2D) :
    (stepCount2D p s).P1 = s.P1 := by
  unfold stepCount2D; split <;> rfl

@[simp] lemma stepCount2D_P2 (p : Params) (s : State2D) :
    (stepCount2D p s).P2 = s.P2 := by
  unfold stepCount2D; split <;> rfl

@[simp] lemma stepCount2D_P1_prev (p : Params) (s : State2D) :
    (stepCount2D p s).P1_prev = s.P1_prev := by
  unfold stepCount2D; split <;> rfl

@[simp] lemma stepCount2D_P2_prev (p : Params) (s : State2D) :
    (stepCount2D p s).P2_prev = s.P2_prev := by
  unfold stepCount2D; split <;> rfl

@[simp] lemma stepCount2D_R1 (p : Params) (s : State2D) :
    (stepCount2D p s).R1 = s.R1 := by
  unfold stepCount2D; split <;> rfl

@[simp] lemma stepCount2D_R2 (p : Params) (s : State2D) :
    (stepCount2D p s).R2 = s.R2 := by
  unfold stepCount2D; split <;> rfl

@[simp] lemma stepCount2D_tk (p : Params) (s : State2D) :
    (stepCount2D p s).tk = s.tk := by
  unfold stepCount2D; split <;> rfl

lemma stepCount2D_count (p : Params) (s : State2D) :
    (stepCount2D p s).count = if hit2D p s then s.count + 1 else s.count := by
  unfold stepCount2D; split <;> simp_all

@[simp] lemma body2D_Input (p : Params) (s : State2D) :
    (body2D p s).Input = s.Input := by
  unfold body2D; simp

lemma body2D_Output (p : Params) (s : State2D) :
    (body2D p s).Output = (stepArrays2D p s).Output := by
  unfold body2D; simp

lemma body2D_count (p : Params) (s : State2D) :
    (body2D p s).count =
      if hit2D p (stepArrays2D p s) then s.count + 1 else s.count := by
  unfold body2D; rw [stepCount2D_count, stepArrays2D_count]

lemma le_body2D_count (p : Params) (s : State2D) :
    s.count ≤ (body2D p s).count := by
  rw [body2D_count]; split <;> omega

lemma body2D_count_le (p : Params) (s : State2D) :
    (body2D p s).count ≤ s.count + 1 := by
  rw [body2D_count]; split <;> omega

@[simp] lemma snapshot2D_Input (p : Params) (s : State2D) :
    (snapshot2D p s).Input = s.Input := rfl

@[simp] lemma snapshot2D_Output (p : Params) (s : State2D) :
    (snapshot2D p s).Output = s.Output := rfl

@[simp] lemma snapshot2D_count (p : Params) (s : State2D) :
    (snapshot2D p s).count = s.count := rfl

@[simp] lemma snapshot2D_R1 (p : Params) (s : State2D) :
    (snapshot2D p s).R1 = s.R1 := rfl

@[simp] lemma snapshot2D_R2 (p : Params) (s : State2D) :
    (snapshot2D p s).R2 = s.R2 := rfl

/-! ### Loop lemmas (2D) -/

lemma loop2D_zero (p : Params) (s : State2D) : loop2D p 0 s = (s, 0) := rfl

lemma loop2D_succ (p : Params) (n : ℕ) (s : State2D) :
    loop2D p (n + 1) s =
      if 4 < (body2D p s).count then (body2D p s, 1)
      else ((loop2D p n (snapshot2D p (body2D p s))).1,
            (loop2D p n (snapshot2D p (body2D p s))).2 + 1) := by
  rw [loop2D]

lemma loop2D_Input (p : Params) (n : ℕ) (s : State2D) :
    (loop2D p n s).1.Input = s.Input := by
  induction n generalizing s with
  | zero => rfl
  | succ n ih =>
    rw [loop2D_succ]
    split
    · simp
    · simp [ih]

lemma loop2D_iters_le (p : Params) (n : ℕ) (s : State2D) :
    (loop2D p n s).2 ≤ n := by
  induction n generalizing s with
  | zero => simp [loop2D_zero]
  | succ n ih =>
    rw [loop2D_succ]
    split
    · simp
    · simpa using ih (snapshot2D p (body2D p s))

lemma loop2D_count_mono (p : Params) (n : ℕ) (s : State2D) :
    s.count ≤ (loop2D p n s).1.count := by
  induction n generalizing s with
  | zero => simp [loop2D_zero]
  | succ n ih =>
    rw [loop2D_succ]
    split
    · simpa using le_body2D_count p s
    ·
      calc s.count ≤ (body2D p s).count := le_body2D_count p s
        _ = (snapshot2D p (body2D p s)).count := (snapshot2D_count _ _).symm
        _ ≤ (loop2D p n (snapshot2D p (body2D p s))).1.count := ih _

/-! ### Frame lemmas: which fields each phase writes (3D) -/

@[simp] lemma stepArrays3D_Input (p : Params) (s : State3D) :
    (stepArrays3D p s).Input = s.Input := rfl

@[simp] lemma stepArrays3D_Output_prev (p : Params) (s : State3D) :
    (stepArrays3D p s).Output_prev = s.Output_prev := rfl

@[simp] lemma stepArrays3D_count (p : Params) (s : State3D) :
    (stepArrays3D p s).count = s.count := rfl

@[simp] lemma stepArrays3D_tk (p : Params) (s : State3D) :
    (stepArrays3D p s).tk = s.tk := rfl

lemma stepArrays3D_Output (p : Params) (s : State3D) :
    (stepArrays3D p s).Output =
      (if p.nonneg = 1 then
        clamp3D (Obj_func3D s.Input s.Output s.R1 s.R2 s.R3 p.lambda p.dimX p.dimY p.dimZ)
          p.dimX p.dimY p.dimZ
      else Obj_func3D s.Input s.Output s.R1 s.R2 s.R3 p.lambda p.dimX p.dimY p.dimZ) := rfl

@[simp] lemma stepCount3D_Input (p : Params) (s : State3D) :
    (stepCount3D p s).Input = s.Input := by
  unfold stepCount3D; split <;> rfl

@[simp] lemma stepCount3D_Output (p : Params) (s : State3D) :
    (stepCount3D p s).Output = s.Output := by
  unfold stepCount3D; split <;> rfl

lemma stepCount3D_count (p : Params) (s : State3D) :
    (stepCount3D p s).count = if hit3D p s then s.count + 1 else s.count := by
  unfold stepCount3D; split <;> simp_all

@[simp] lemma body3D_Input (p : Params) (s : State3D) :
    (body3D p s).Input = s.Input := by
  unfold body3D; simp

lemma body3D_Output (p : Params) (s : State3D) :
    (body3D p s).Output = (stepArrays3D p s).Output := by
  unfold body3D; simp

lemma body3D_count (p : Params) (s : State3D) :
    (body3D p s).count =
      if hit3D p (stepArrays3D p s) then s.count + 1 else s.count := by
  unfold body3D; rw [stepCount3D_count, stepArrays3D_count]

lemma le_body3D_count (p : Params) (s : State3D) :
    s.count ≤ (body3D p s).count := by
  rw [body3D_count]; split <;> omega

lemma body3D_count_le (p : Params) (s : State3D) :
    (body3D p s).count ≤ s.count + 1 := by
  rw [body3D_count]; split <;> omega

@[simp] lemma snapshot3D_Input (p : Params) (s : State3D) :
    (snapshot3D p s).Input = s.Input := rfl

@[simp] lemma snapshot3D_Output (p : Params) (s : State3D) :
    (snapshot3D p s).Output = s.Output := rfl

@[simp] lemma snapshot3D_count (p : Params) (s : State3D) :
    (snapshot3D p s).count = s.count := rfl

/-! ### Loop lemmas (3D) -/

lemma loop3D_zero (p : Params) (s : State3D) : loop3D p 0 s = (s, 0) := rfl

lemma loop3D_succ (p : Params) (n : ℕ) (s : State3D) :
    loop3D p (n + 1) s =
      if 4 < (body3D p s).count then (body3D p s, 1)
      else ((loop3D p n (snapshot3D p (body3D p s))).1,
            (loop3D p n (snapshot3D p (body3D p s))).2 + 1) := by
  rw [loop3D]

lemma loop3D_Input (p : Params) (n : ℕ) (s : State3D) :
    (loop3D p n s).1.Input = s.Input := by
  induction n generalizing s with
  | zero => rfl
  | succ n ih =>
    rw [loop3D_succ]
    split
    · simp
    · simp [ih]

lemma loop3D_iters_le (p : Params) (n : ℕ) (s : State3D) :
    (loop3D p n s).2 ≤ n := by
  induction n generalizing s with
  | zero => simp [loop3D_zero]
  | succ n ih =>
    rw [loop3D_succ]
    split
    · simp
    · simpa using ih (snapshot3D p (body3D p s))

lemma loop3D_count_mono (p : Params) (n : ℕ) (s : State3D) :
    s.count ≤ (loop3D p n s).1.count := by
  induction n generalizing s with
  | zero => simp [loop3D_zero]
  | succ n ih =>
    rw [loop3D_succ]
    split
    · simpa using le_body3D_count p s
    ·
      calc s.count ≤ (body3D p s).count := le_body3D_count p s
        _ = (snapshot3D p (body3D p s)).count := (snapshot3D_count _ _).symm
        _ ≤ (loop3D p n (snapshot3D p (body3D p s))).1.count := ih _

/-! ### Stopping-test lemmas -/

lemma not_hit2D_of_epsil_nonpos (p : Params) (s : State2D) (h : p.epsil ≤ 0) :
    ¬ hit2D p s := by
  rintro ⟨-, hlt⟩
  exact absurd (hlt.trans_le h)
    (not_lt.2 (div_nonneg (Real.sqrt_nonneg _) (Real.sqrt_nonneg _)))

lemma not_hit3D_of_epsil_nonpos (p : Params) (s : State3D) (h : p.epsil ≤ 0) :
    ¬ hit3D p s := by
  rintro ⟨-, hlt⟩
  exact absurd (hlt.trans_le h)
    (not_lt.2 (div_nonneg (Real.sqrt_nonneg _) (Real.sqrt_nonneg _)))

lemma not_hit2D_of_resDen_zero (p : Params) (s : State2D) (h : resDen2D p s = 0) :
    ¬ hit2D p s := fun hh => hh.1 h

lemma not_hit3D_of_resDen_zero (p : Params) (s : State3D) (h : resDen3D p s = 0) :
    ¬ hit3D p s := fun hh => hh.1 h

lemma loop2D_epsil_nonpos (p : Params) (h : p.epsil ≤ 0) :
    ∀ (n : ℕ) (s : State2D), s.count ≤ 4 →
      (loop2D p n s).2 = n ∧ (loop2D p n s).1.count = s.count := by
  intro n
  induction n with
  | zero => intro s _; simp [loop2D_zero]
  | succ n ih =>
    intro s hs
    have hb : (body2D p s).count = s.count := by
      rw [body2D_count, if_neg (not_hit2D_of_epsil_nonpos p _ h)]
    rw [loop2D_succ, if_neg (by omega)]
    have hsnap : (snapshot2D p (body2D p s)).count = s.count := by
      rw [snapshot2D_count, hb]
    obtain ⟨h1, h2⟩ := ih (snapshot2D p (body2D p s)) (by omega)
    exact ⟨by rw [h1], by rw [h2, hsnap]⟩

lemma loop3D_epsil_nonpos (p : Params) (h : p.epsil ≤ 0) :
    ∀ (n : ℕ) (s : State3D), s.count ≤ 4 →
      (loop3D p n s).2 = n ∧ (loop3D p n s).1.count = s.count := by
  intro n
  induction n with
  | zero => intro s _; simp [loop3D_zero]
  | succ n ih =>
    intro s hs
    have hb : (body3D p s).count = s.count := by
      rw [body3D_count, if_neg (not_hit3D_of_epsil_nonpos p _ h)]
    rw [loop3D_succ, if_neg (by omega)]
    have hsnap : (snapshot3D p (body3D p s)).count = s.count := by
      rw [snapshot3D_count, hb]
    obtain ⟨h1, h2⟩ := ih (snapshot3D p (body3D p s)) (by omega)
    exact ⟨by rw [h1], by rw [h2, hsnap]⟩

lemma loop2D_stops_at_first (p : Params) :
    ∀ (n : ℕ) (s : State2D), (loop2D p n s).2 < n → 4 < (loop2D p n s).1.count := by
  intro n
  induction n with
  | zero => intro s h; simp [loop2D_zero] at h
  | succ n ih =>
    intro s h
    rw [loop2D_succ] at h ⊢
    by_cases hb : 4 < (body2D p s).count
    · rw [if_pos hb] at h ⊢; exact hb
    · rw [if_neg hb] at h ⊢
      exact ih (snapshot2D p (body2D p s)) (by omega)

lemma loop3D_stops_at_first (p : Params) :
    ∀ (n : ℕ) (s : State3D), (loop3D p n s).2 < n → 4 < (loop3D p n s).1.count := by
  intro n
  induction n with
  | zero => intro s h; simp [loop3D_zero] at h
  | succ n ih =>
    intro s h
    rw [loop3D_succ] at h ⊢
    by_cases hb : 4 < (body3D p s).count
    · rw [if_pos hb] at h ⊢; exact hb
    · rw [if_neg hb] at h ⊢
      exact ih (snapshot3D p (body3D p s)) (by omega)

lemma loop2D_before_break (p : Params) :
    ∀ (m n : ℕ) (s : State2D), s.count ≤ 4 → m < (loop2D p n s).2 →
      (loop2D p m s).2 = m ∧ (loop2D p m s).1.count ≤ 4 := by
  intro m
  induction m with
  | zero => intro n s hs _; exact ⟨rfl, by simpa [loop2D_zero] using hs⟩
  | succ m ih =>
    intro n s hs h
    match n with
    | 0 => simp [loop2D_zero] at h
    | n + 1 =>
      rw [loop2D_succ] at h
      by_cases hb : 4 < (body2D p s).count
      · rw [if_pos hb] at h; omega
      · rw [if_neg hb] at h
        have hsc : (snapshot2D p (body2D p s)).count ≤ 4 := by
          rw [snapshot2D_count]; omega
        obtain ⟨h1, h2⟩ := ih n (snapshot2D p (body2D p s)) hsc (by omega)
        rw [loop2D_succ, if_neg hb]
        exact ⟨by rw [h1], h2⟩

lemma loop3D_before_break (p : Params) :
    ∀ (m n : ℕ) (s : State3D), s.count ≤ 4 → m < (loop3D p n s).2 →
      (loop3D p m s).2 = m ∧ (loop3D p m s).1.count ≤ 4 := by
  intro m
  induction m with
  | zero => intro n s hs _; exact ⟨rfl, by simpa [loop3D_zero] using hs⟩
  | succ m ih =>
    intro n s hs h
    match n with
    | 0 => simp [loop3D_zero] at h
    | n + 1 =>
      rw [loop3D_succ] at h
      by_cases hb : 4 < (body3D p s).count
      · rw [if_pos hb] at h; omega
      · rw [if_neg hb] at h
        have hsc : (snapshot3D p (body3D p s)).count ≤ 4 := by
          rw [snapshot3D_count]; omega
        obtain ⟨h1, h2⟩ := ih n (snapshot3D p (body3D p s)) hsc (by omega)
        rw [loop3D_succ, if_neg hb]
        exact ⟨by rw [h1], h2⟩

/-! ### Nonnegativity lemmas -/

lemma clamp2D_nonneg (D : Im2) (dimX dimY i j : ℤ) (h : inGrid2 dimX dimY i j) :
    0 ≤ clamp2D D dimX dimY i j := by
  unfold clamp2D
  split
  · exact le_refl 0
  · next hc => exact le_of_not_lt fun hneg => hc ⟨h, hneg⟩

lemma clamp3D_nonneg (D : Im3) (dimX dimY dimZ i j k : ℤ)
    (h : inGrid3 dimX dimY dimZ i j k) : 0 ≤ clamp3D D dimX dimY dimZ i j k := by
  unfold clamp3D
  split
  · exact le_refl 0
  · next hc => exact le_of_not_lt fun hneg => hc ⟨h, hneg⟩

lemma body2D_Output_nonneg (p : Params) (s : State2D) (hnn : p.nonneg = 1)
    (i j : ℤ) (h : inGrid2 p.dimX p.dimY i j) : 0 ≤ (body2D p s).Output i j := by
  rw [body2D_Output, stepArrays2D_Output, if_pos hnn]
  exact clamp2D_nonneg _ _ _ _ _ h

lemma body3D_Output_nonneg (p : Params) (s : State3D) (hnn : p.nonneg = 1)
    (i j k : ℤ) (h : inGrid3 p.dimX p.dimY p.dimZ i j k) :
    0 ≤ (body3D p s).Output i j k := by
  rw [body3D_Output, stepArrays3D_Output, if_pos hnn]
  exact clamp3D_nonneg _ _ _ _ _ _ _ h

lemma loop2D_Output_nonneg (p : Params) (hnn : p.nonneg = 1) :
    ∀ (n : ℕ) (s : State2D) (i j : ℤ), 1 ≤ n → inGrid2 p.dimX p.dimY i j →
      0 ≤ (loop2D p n s).1.Output i j := by
  intro n
  induction n with
  | zero => intro s i j h _; omega
  | succ n ih =>
    intro s i j _ hg
    rw [loop2D_succ]
    split
    · exact body2D_Output_nonneg p s hnn i j hg
    · match n with
      | 0 =>
        simpa [loop2D_zero] using body2D_Output_nonneg p s hnn i j hg
      | n + 1 =>
        exact ih (snapshot2D p (body2D p s)) i j (by omega) hg

lemma loop3D_Output_nonneg (p : Params) (hnn : p.nonneg = 1) :
    ∀ (n : ℕ) (s : State3D) (i j k : ℤ), 1 ≤ n → inGrid3 p.dimX p.dimY p.dimZ i j k →
      0 ≤ (loop3D p n s).1.Output i j k := by
  intro n
  induction n with
  | zero => intro s i j k h _; omega
  | succ n ih =>
    intro s i j k _ hg
    rw [loop3D_succ]
    split
    · exact body3D_Output_nonneg p s hnn i j k hg
    · match n with
      | 0 =>
        simpa [loop3D_zero] using body3D_Output_nonneg p s hnn i j k hg
      | n + 1 =>
        exact ih (snapshot3D p (body3D p s)) i j k (by omega) hg

/-! ### Dataflow of one 2D iteration (definitional projections) -/

lemma stepArrays2D_P1 (p : Params) (s : State2D) :
    (stepArrays2D p s).P1 =
      (Proj_func2D
        (Grad_func2D s.P1 s.P2 (stepArrays2D p s).Output s.R1 s.R2 p.lambda p.dimX p.dimY).1
        (Grad_func2D s.P1 s.P2 (stepArrays2D p s).Output s.R1 s.R2 p.lambda p.dimX p.dimY).2
        p.methodTV p.dimX p.dimY).1 := rfl

lemma stepArrays2D_P2 (p : Params) (s : State2D) :
    (stepArrays2D p s).P2 =
      (Proj_func2D
        (Grad_func2D s.P1 s.P2 (stepArrays2D p s).Output s.R1 s.R2 p.lambda p.dimX p.dimY).1
        (Grad_func2D s.P1 s.P2 (stepArrays2D p s).Output s.R1 s.R2 p.lambda p.dimX p.dimY).2
        p.methodTV p.dimX p.dimY).2 := rfl

lemma stepArrays2D_R1 (p : Params) (s : State2D) :
    (stepArrays2D p s).R1 =
      (Rupd_func2D (stepArrays2D p s).P1 s.P1_prev (stepArrays2D p s).P2 s.P2_prev
        s.R1 s.R2 (tkp1Update s.tk) s.tk p.dimX p.dimY).1 := rfl

lemma stepArrays2D_R2 (p : Params) (s : State2D) :
    (stepArrays2D p s).R2 =
      (Rupd_func2D (stepArrays2D p s).P1 s.P1_prev (stepArrays2D p s).P2 s.P2_prev
        s.R1 s.R2 (tkp1Update s.tk) s.tk p.dimX p.dimY).2 := rfl

lemma body2D_P1 (p : Params) (s : State2D) :
    (body2D p s).P1 = (stepArrays2D p s).P1 := by
  unfold body2D; simp

lemma body2D_P2 (p : Params) (s : State2D) :
    (body2D p s).P2 = (stepArrays2D p s).P2 := by
  unfold body2D; simp

lemma body2D_R1 (p : Params) (s : State2D) :
    (body2D p s).R1 = (stepArrays2D p s).R1 := by
  unfold body2D; simp

lemma body2D_R2 (p : Params) (s : State2D) :
    (body2D p s).R2 = (stepArrays2D p s).R2 := by
  unfold body2D; simp

lemma body2D_P1_prev (p : Params) (s : State2D) :
    (body2D p s).P1_prev = s.P1_prev := by
  unfold body2D; simp

lemma body2D_P2_prev (p : Params) (s : State2D) :
    (body2D p s).P2_prev = s.P2_prev := by
  unfold body2D; simp

lemma snapshot2D_P1_prev (p : Params) (s : State2D) :
    (snapshot2D p s).P1_prev = copyIm2 s.P1 s.P1_prev p.dimX p.dimY := rfl

lemma snapshot2D_P2_prev (p : Params) (s : State2D) :
    (snapshot2D p s).P2_prev = copyIm2 s.P2 s.P2_prev p.dimX p.dimY := rfl

lemma copyIm2_on_grid (A U : Im2) (dimX dimY i j : ℤ) (hg : inGrid2 dimX dimY i j) :
    copyIm2 A U dimX dimY i j = A i j := by
  unfold copyIm2; rw [if_pos hg]

/-! ### Pointwise operator lemmas for constant input / zero duals -/

lemma Obj_func2D_const (A D R1 R2 : Im2) (lambda : ℝ) (dimX dimY : ℤ) (c : ℝ)
    (hA : ∀ i j, inGrid2 dimX dimY i j → A i j = c)
    (hR1 : ∀ i j, inGrid2 dimX dimY i j → R1 i j = 0)
    (hR2 : ∀ i j, inGrid2 dimX dimY i j → R2 i j = 0)
    (i j : ℤ) (hg : inGrid2 dimX dimY i j) :
    Obj_func2D A D R1 R2 lambda dimX dimY i j = c := by
  obtain ⟨hi0, hix, hj0, hjy⟩ := hg
  unfold Obj_func2D
  rw [if_pos (⟨hi0, hix, hj0, hjy⟩ : inGrid2 dimX dimY i j)]
  show A i j - lambda * (R1 i j + R2 i j - (if i = 0 then 0 else R1 (i - 1) j)
    - (if j = 0 then 0 else R2 i (j - 1))) = c
  have h1 : (if i = 0 then (0:ℝ) else R1 (i - 1) j) = 0 := by
    split
    · rfl
    · next hne => exact hR1 _ _ ⟨by omega, by omega, hj0, hjy⟩
  have h2 : (if j = 0 then (0:ℝ) else R2 i (j - 1)) = 0 := by
    split
    · rfl
    · next hne => exact hR2 _ _ ⟨hi0, hix, by omega, by omega⟩
  rw [h1, h2, hR1 i j ⟨hi0, hix, hj0, hjy⟩, hR2 i j ⟨hi0, hix, hj0, hjy⟩,
    hA i j ⟨hi0, hix, hj0, hjy⟩]
  ring

lemma Grad_func2D_fst_zero (P1 P2 D R1 R2 : Im2) (lambda : ℝ) (dimX dimY : ℤ) (c : ℝ)
    (hD : ∀ i j, inGrid2 dimX dimY i j → D i j = c)
    (hR1 : ∀ i j, inGrid2 dimX dimY i j → R1 i j = 0)
    (i j : ℤ) (hg : inGrid2 dimX dimY i j) :
    (Grad_func2D P1 P2 D R1 R2 lambda dimX dimY).1 i j = 0 := by
  obtain ⟨hi0, hix, hj0, hjy⟩ := hg
  unfold Grad_func2D
  show (if inGrid2 dimX dimY i j then
    R1 i j + 1 / (8 * lambda) * (if i = dimX - 1 then 0 else D i j - D (i + 1) j)
    else P1 i j) = 0
  rw [if_pos (⟨hi0, hix, hj0, hjy⟩ : inGrid2 dimX dimY i j)]
  have hv : (if i = dimX - 1 then (0:ℝ) else D i j - D (i + 1) j) = 0 := by
    split
    · rfl
    · next hne =>
      rw [hD i j ⟨hi0, hix, hj0, hjy⟩, hD (i + 1) j ⟨by omega, by omega, hj0, hjy⟩]
      ring
  rw [hv, hR1 i j ⟨hi0, hix, hj0, hjy⟩]
  ring

lemma Grad_func2D_snd_zero (P1 P2 D R1 R2 : Im2) (lambda : ℝ) (dimX dimY : ℤ) (c : ℝ)
    (hD : ∀ i j, inGrid2 dimX dimY i j → D i j = c)
    (hR2 : ∀ i j, inGrid2 dimX dimY i j → R2 i j = 0)
    (i j : ℤ) (hg : inGrid2 dimX dimY i j) :
    (Grad_func2D P1 P2 D R1 R2 lambda dimX dimY).2 i j = 0 := by
  obtain ⟨hi0, hix, hj0, hjy⟩ := hg
  unfold Grad_func2D
  show (if inGrid2 dimX dimY i j then
    R2 i j + 1 / (8 * lambda) * (if j = dimY - 1 then 0 else D i j - D i (j + 1))
    else P2 i j) = 0
  rw [if_pos (⟨hi0, hix, hj0, hjy⟩ : inGrid2 dimX dimY i j)]
  have hv : (if j = dimY - 1 then (0:ℝ) else D i j - D i (j + 1)) = 0 := by
    split
    · rfl
    · next hne =>
      rw [hD i j ⟨hi0, hix, hj0, hjy⟩, hD i (j + 1) ⟨hi0, hix, by omega, by omega⟩]
      ring
  rw [hv, hR2 i j ⟨hi0, hix, hj0, hjy⟩]
  ring

lemma Proj_func2D_fst_zero (P1 P2 : Im2) (methTV dimX dimY i j : ℤ)
    (hg : inGrid2 dimX dimY i j) (h1 : P1 i j = 0) (h2 : P2 i j = 0) :
    (Proj_func2D P1 P2 methTV dimX dimY).1 i j = 0 := by
  unfold Proj_func2D
  by_cases hm : methTV = 0
  · rw [if_pos hm]
    show (if inGrid2 dimX dimY i j then
      if 1 < (P1 i j) ^ 2 + (P2 i j) ^ 2 then P1 i j * (1 / Real.sqrt ((P1 i j) ^ 2 + (P2 i j) ^ 2))
      else P1 i j else P1 i j) = 0
    rw [if_pos hg, h1, h2]
    norm_num
  · rw [if_neg hm]
    show (if inGrid2 dimX dimY i j then
      P1 i j / (if |P1 i j| < 1 then 1 else |P1 i j|) else P1 i j) = 0
    rw [if_pos hg, h1]
    norm_num

lemma Proj_func2D_snd_zero (P1 P2 : Im2) (methTV dimX dimY i j : ℤ)
    (hg : inGrid2 dimX dimY i j) (h1 : P1 i j = 0) (h2 : P2 i j = 0) :
    (Proj_func2D P1 P2 methTV dimX dimY).2 i j = 0 := by
  unfold Proj_func2D
  by_cases hm : methTV = 0
  · rw [if_pos hm]
    show (if inGrid2 dimX dimY i j then
      if 1 < (P1 i j) ^ 2 + (P2 i j) ^ 2 then P2 i j * (1 / Real.sqrt ((P1 i j) ^ 2 + (P2 i j) ^ 2))
      else P2 i j else P2 i j) = 0
    rw [if_pos hg, h1, h2]
    norm_num
  · rw [if_neg hm]
    show (if inGrid2 dimX dimY i j then
      P2 i j / (if |P2 i j| < 1 then 1 else |P2 i j|) else P2 i j) = 0
    rw [if_pos hg, h2]
    norm_num

lemma Rupd_func2D_fst_zero (P1 P1_old P2 P2_old R1 R2 : Im2) (tkp1 tk : ℝ)
    (dimX dimY i j : ℤ) (hg : inGrid2 dimX dimY i j)
    (hP : P1 i j = 0) (hPo : P1_old i j = 0) :
    (Rupd_func2D P1 P1_old P2 P2_old R1 R2 tkp1 tk dimX dimY).1 i j = 0 := by
  unfold Rupd_func2D
  show (if inGrid2 dimX dimY i j then
    P1 i j + (tk - 1) / tkp1 * (P1 i j - P1_old i j) else R1 i j) = 0
  rw [if_pos hg, hP, hPo]
  ring

lemma Rupd_func2D_snd_zero (P1 P1_old P2 P2_old R1 R2 : Im2) (tkp1 tk : ℝ)
    (dimX dimY i j : ℤ) (hg : inGrid2 dimX dimY i j)
    (hP : P2 i j = 0) (hPo : P2_old i j = 0) :
    (Rupd_func2D P1 P1_old P2 P2_old R1 R2 tkp1 tk dimX dimY).2 i j = 0 := by
  unfold Rupd_func2D
  show (if inGrid2 dimX dimY i j then
    P2 i j + (tk - 1) / tkp1 * (P2 i j - P2_old i j) else R2 i j) = 0
  rw [if_pos hg, hP, hPo]
  ring

/-! ### Constant-input invariant -/

/-- The invariant that drives scenario A once the scratch buffers start
zeroed: the input is the constant `c` on the grid and the momentum-carried
duals and dual snapshots are zero on the grid. -/
def ConstInv (p : Params) (c : ℝ) (s : State2D) : Prop :=
  (∀ i j, inGrid2 p.dimX p.dimY i j → s.Input i j = c) ∧
  (∀ i j, inGrid2 p.dimX p.dimY i j → s.R1 i j = 0) ∧
  (∀ i j, inGrid2 p.dimX p.dimY i j → s.R2 i j = 0) ∧
  (∀ i j, inGrid2 p.dimX p.dimY i j → s.P1_prev i j = 0) ∧
  (∀ i j, inGrid2 p.dimX p.dimY i j → s.P2_prev i j = 0)

lemma stepArrays2D_const (p : Params) (c : ℝ) (s : State2D) (hnn : p.nonneg ≠ 1)
    (h : ConstInv p c s) :
    (∀ i j, inGrid2 p.dimX p.dimY i j → (stepArrays2D p s).Output i j = c) ∧
    (∀ i j, inGrid2 p.dimX p.dimY i j → (stepArrays2D p s).P1 i j = 0) ∧
    (∀ i j, inGrid2 p.dimX p.dimY i j → (stepArrays2D p s).P2 i j = 0) ∧
    (∀ i j, inGrid2 p.dimX p.dimY i j → (stepArrays2D p s).R1 i j = 0) ∧
    (∀ i j, inGrid2 p.dimX p.dimY i j → (stepArrays2D p s).R2 i j = 0) := by
  obtain ⟨hIn, hR1, hR2, hP1p, hP2p⟩ := h
  have hD : ∀ i j, inGrid2 p.dimX p.dimY i j → (stepArrays2D p s).Output i j = c := by
    intro i j hg
    rw [stepArrays2D_Output, if_neg hnn]
    exact Obj_func2D_const _ _ _ _ _ _ _ _ hIn hR1 hR2 i j hg
  have hP1 : ∀ i j, inGrid2 p.dimX p.dimY i j → (stepArrays2D p s).P1 i j = 0 := by
    intro i j hg
    rw [stepArrays2D_P1]
    exact Proj_func2D_fst_zero _ _ _ _ _ _ _ hg
      (Grad_func2D_fst_zero _ _ _ _ _ _ _ _ _ hD hR1 i j hg)
      (Grad_func2D_snd_zero _ _ _ _ _ _ _ _ _ hD hR2 i j hg)
  have hP2 : ∀ i j, inGrid2 p.dimX p.dimY i j → (stepArrays2D p s).P2 i j = 0 := by
    intro i j hg
    rw [stepArrays2D_P2]
    exact Proj_func2D_snd_zero _ _ _ _ _ _ _ hg
      (Grad_func2D_fst_zero _ _ _ _ _ _ _ _ _ hD hR1 i j hg)
      (Grad_func2D_snd_zero _ _ _ _ _ _ _ _ _ hD hR2 i j hg)
  refine ⟨hD, hP1, hP2, ?_, ?_⟩
  · intro i j hg
    rw [stepArrays2D_R1]
    exact Rupd_func2D_fst_zero _ _ _ _ _ _ _ _ _ _ _ _ hg (hP1 i j hg) (hP1p i j hg)
  · intro i j hg
    rw [stepArrays2D_R2]
    exact Rupd_func2D_snd_zero _ _ _ _ _ _ _ _ _ _ _ _ hg (hP2 i j hg) (hP2p i j hg)

lemma ConstInv_snapshot_body (p : Params) (c : ℝ) (s : State2D) (hnn : p.nonneg ≠ 1)
    (h : ConstInv p c s) : ConstInv p c (snapshot2D p (body2D p s)) := by
  obtain ⟨hstep1, hstep2, hstep3, hstep4, hstep5⟩ := stepArrays2D_const p c s hnn h
  refine ⟨?_, ?_, ?_, ?_, ?_⟩
  · intro i j hg
    rw [snapshot2D_Input, body2D_Input]
    exact h.1 i j hg
  · intro i j hg
    rw [snapshot2D_R1, body2D_R1]
    exact hstep4 i j hg
  · intro i j hg
    rw [snapshot2D_R2, body2D_R2]
    exact hstep5 i j hg
  · intro i j hg
    rw [snapshot2D_P1_prev, copyIm2_on_grid _ _ _ _ _ _ hg, body2D_P1]
    exact hstep2 i j hg
  · intro i j hg
    rw [snapshot2D_P2_prev, copyIm2_on_grid _ _ _ _ _ _ hg, body2D_P2]
    exact hstep3 i j hg

lemma loop2D_const (p : Params) (c : ℝ) (hnn : p.nonneg ≠ 1) :
    ∀ (n : ℕ) (s : State2D), 1 ≤ n → ConstInv p c s →
      ∀ i j, inGrid2 p.dimX p.dimY i j → (loop2D p n s).1.Output i j = c := by
  intro n
  induction n with
  | zero => intro s h _ i j _; omega
  | succ n ih =>
    intro s _ hinv i j hg
    have hbody : (body2D p s).Output i j = c := by
      rw [body2D_Output]
      exact (stepArrays2D_const p c s hnn hinv).1 i j hg
    rw [loop2D_succ]
    split
    · exact hbody
    · match n with
      | 0 =>
        simpa [loop2D_zero] using hbody
      | n + 1 =>
        exact ih (snapshot2D p (body2D p s)) (by omega)
          (ConstInv_snapshot_body p c s hnn hinv) i j hg

/-! ### Projection postcondition: scalar lemmas -/

lemma iso2_scaled_sumsq (a b : ℝ) (hd : 1 < a ^ 2 + b ^ 2) :
    (a * (1 / Real.sqrt (a ^ 2 + b ^ 2))) ^ 2 + (b * (1 / Real.sqrt (a ^ 2 + b ^ 2))) ^ 2 = 1 := by
  have h0 : (0:ℝ) ≤ a ^ 2 + b ^ 2 := by positivity
  have hpos : 0 < Real.sqrt (a ^ 2 + b ^ 2) := Real.sqrt_pos.2 (by linarith)
  have hs : Real.sqrt (a ^ 2 + b ^ 2) ^ 2 = a ^ 2 + b ^ 2 := Real.sq_sqrt h0
  field_simp

lemma iso3_scaled_sumsq (a b c : ℝ) (hd : 1 < a ^ 2 + b ^ 2 + c ^ 2) :
    (a * (1 / Real.sqrt (a ^ 2 + b ^ 2 + c ^ 2))) ^ 2 +
      (b * (1 / Real.sqrt (a ^ 2 + b ^ 2 + c ^ 2))) ^ 2 +
      (c * (1 / Real.sqrt (a ^ 2 + b ^ 2 + c ^ 2))) ^ 2 = 1 := by
  have h0 : (0:ℝ) ≤ a ^ 2 + b ^ 2 + c ^ 2 := by positivity
  have hpos : 0 < Real.sqrt (a ^ 2 + b ^ 2 + c ^ 2) := Real.sqrt_pos.2 (by linarith)
  have hs : Real.sqrt (a ^ 2 + b ^ 2 + c ^ 2) ^ 2 = a ^ 2 + b ^ 2 + c ^ 2 := Real.sq_sqrt h0
  field_simp

lemma aniso_clip_abs_le (a : ℝ) : |a / (if |a| < 1 then 1 else |a|)| ≤ 1 := by
  split
  · next h => rw [div_one]; exact le_of_lt h
  · next h =>
    have h1 : (1:ℝ) ≤ |a| := not_lt.1 h
    have ha : |a| ≠ 0 := ne_of_gt (lt_of_lt_of_le one_pos h1)
    rw [abs_div, abs_abs, div_self ha]

lemma aniso_clip_eq_self (a : ℝ) (h : |a| ≤ 1) : a / (if |a| < 1 then 1 else |a|) = a := by
  split
  · exact div_one a
  · next h2 =>
    have h3 : |a| = 1 := le_antisymm h (not_lt.1 h2)
    rw [h3, div_one]

/-! ### Projection postcondition: pointwise evaluation of the source -/

lemma Proj_func2D_iso_fst (P1 P2 : Im2) (dimX dimY i j : ℤ) (hg : inGrid2 dimX dimY i j) :
    (Proj_func2D P1 P2 0 dimX dimY).1 i j =
      if 1 < (P1 i j) ^ 2 + (P2 i j) ^ 2
      then P1 i j * (1 / Real.sqrt ((P1 i j) ^ 2 + (P2 i j) ^ 2)) else P1 i j := by
  unfold Proj_func2D
  rw [if_pos rfl]
  show (if inGrid2 dimX dimY i j then
    if 1 < (P1 i j) ^ 2 + (P2 i j) ^ 2
    then P1 i j * (1 / Real.sqrt ((P1 i j) ^ 2 + (P2 i j) ^ 2)) else P1 i j
    else P1 i j) = _
  rw [if_pos hg]

lemma Proj_func2D_iso_snd (P1 P2 : Im2) (dimX dimY i j : ℤ) (hg : inGrid2 dimX dimY i j) :
    (Proj_func2D P1 P2 0 dimX dimY).2 i j =
      if 1 < (P1 i j) ^ 2 + (P2 i j) ^ 2
      then P2 i j * (1 / Real.sqrt ((P1 i j) ^ 2 + (P2 i j) ^ 2)) else P2 i j := by
  unfold Proj_func2D
  rw [if_pos rfl]
  show (if inGrid2 dimX dimY i j then
    if 1 < (P1 i j) ^ 2 + (P2 i j) ^ 2
    then P2 i j * (1 / Real.sqrt ((P1 i j) ^ 2 + (P2 i j) ^ 2)) else P2 i j
    else P2 i j) = _
  rw [if_pos hg]

lemma Proj_func2D_aniso_fst (P1 P2 : Im2) (methTV dimX dimY i j : ℤ)
    (hm : methTV ≠ 0) (hg : inGrid2 dimX dimY i j) :
    (Proj_func2D P1 P2 methTV dimX dimY).1 i j =
      P1 i j / (if |P1 i j| < 1 then 1 else |P1 i j|) := by
  unfold Proj_func2D
  rw [if_neg hm]
  show (if inGrid2 dimX dimY i j then
    P1 i j / (if |P1 i j| < 1 then 1 else |P1 i j|) else P1 i j) = _
  rw [if_pos hg]

lemma Proj_func2D_aniso_snd (P1 P2 : Im2) (methTV dimX dimY i j : ℤ)
    (hm : methTV ≠ 0) (hg : inGrid2 dimX dimY i j) :
    (Proj_func2D P1 P2 methTV dimX dimY).2 i j =
      P2 i j / (if |P2 i j| < 1 then 1 else |P2 i j|) := by
  unfold Proj_func2D
  rw [if_neg hm]
  show (if inGrid2 dimX dimY i j then
    P2 i j / (if |P2 i j| < 1 then 1 else |P2 i j|) else P2 i j) = _
  rw [if_pos hg]

lemma Proj_func3D_iso_fst (P1 P2 P3 : Im3) (dimX dimY dimZ i j k : ℤ)
    (hg : inGrid3 dimX dimY dimZ i j k) :
    (Proj_func3D P1 P2 P3 0 dimX dimY dimZ).1 i j k =
      if 1 < (P1 i j k) ^ 2 + (P2 i j k) ^ 2 + (P3 i j k) ^ 2
      then P1 i j k * (1 / Real.sqrt ((P1 i j k) ^ 2 + (P2 i j k) ^ 2 + (P3 i j k) ^ 2))
      else P1 i j k := by
  unfold Proj_func3D
  rw [if_pos rfl]
  show (if inGrid3 dimX dimY dimZ i j k then
    if 1 < (P1 i j k) ^ 2 + (P2 i j k) ^ 2 + (P3 i j k) ^ 2
    then P1 i j k * (1 / Real.sqrt ((P1 i j k) ^ 2 + (P2 i j k) ^ 2 + (P3 i j k) ^ 2))
    else P1 i j k else P1 i j k) = _
  rw [if_pos hg]

lemma Proj_func3D_iso_snd (P1 P2 P3 : Im3) (dimX dimY dimZ i j k : ℤ)
    (hg : inGrid3 dimX dimY dimZ i j k) :
    (Proj_func3D P1 P2 P3 0 dimX dimY dimZ).2.1 i j k =
      if 1 < (P1 i j k) ^ 2 + (P2 i j k) ^ 2 + (P3 i j k) ^ 2
      then P2 i j k * (1 / Real.sqrt ((P1 i j k) ^ 2 + (P2 i j k) ^ 2 + (P3 i j k) ^ 2))
      else P2 i j k := by
  unfold Proj_func3D
  rw [if_pos rfl]
  show (if inGrid3 dimX dimY dimZ i j k then
    if 1 < (P1 i j k) ^ 2 + (P2 i j k) ^ 2 + (P3 i j k) ^ 2
    then P2 i j k * (1 / Real.sqrt ((P1 i j k) ^ 2 + (P2 i j k) ^ 2 + (P3 i j k) ^ 2))
    else P2 i j k else P2 i j k) = _
  rw [if_pos hg]

lemma Proj_func3D_iso_thd (P1 P2 P3 : Im3) (dimX dimY dimZ i j k : ℤ)
    (hg : inGrid3 dimX dimY dimZ i j k) :
    (Proj_func3D P1 P2 P3 0 dimX dimY dimZ).2.2 i j k =
      if 1 < (P1 i j k) ^ 2 + (P2 i j k) ^ 2 + (P3 i j k) ^ 2
      then P3 i j k * (1 / Real.sqrt ((P1 i j k) ^ 2 + (P2 i j k) ^ 2 + (P3 i j k) ^ 2))
      else P3 i j k := by
  unfold Proj_func3D
  rw [if_pos rfl]
  show (if inGrid3 dimX dimY dimZ i j k then
    if 1 < (P1 i j k) ^ 2 + (P2 i j k) ^ 2 + (P3 i j k) ^ 2
    then P3 i j k * (1 / Real.sqrt ((P1 i j k) ^ 2 + (P2 i j k) ^ 2 + (P3 i j k) ^ 2))
    else P3 i j k else P3 i j k) = _
  rw [if_pos hg]

lemma Proj_func3D_aniso_fst (P1 P2 P3 : Im3) (methTV dimX dimY dimZ i j k : ℤ)
    (hm : methTV ≠ 0) (hg : inGrid3 dimX dimY dimZ i j k) :
    (Proj_func3D P1 P2 P3 methTV dimX dimY dimZ).1 i j k =
      P1 i j k / (if |P1 i j k| < 1 then 1 else |P1 i j k|) := by
  unfold Proj_func3D
  rw [if_neg hm]
  show (if inGrid3 dimX dimY dimZ i j k then
    P1 i j k / (if |P1 i j k| < 1 then 1 else |P1 i j k|) else P1 i j k) = _
  rw [if_pos hg]

lemma Proj_func3D_aniso_snd (P1 P2 P3 : Im3) (methTV dimX dimY dimZ i j k : ℤ)
    (hm : methTV ≠ 0) (hg : inGrid3 dimX dimY dimZ i j k) :
    (Proj_func3D P1 P2 P3 methTV dimX dimY dimZ).2.1 i j k =
      P2 i j k / (if |P2 i j k| < 1 then 1 else |P2 i j k|) := by
  unfold Proj_func3D
  rw [if_neg hm]
  show (if inGrid3 dimX dimY dimZ i j k then
    P2 i j k / (if |P2 i j k| < 1 then 1 else |P2 i j k|) else P2 i j k) = _
  rw [if_pos hg]

lemma Proj_func3D_aniso_thd (P1 P2 P3 : Im3) (methTV dimX dimY dimZ i j k : ℤ)
    (hm : methTV ≠ 0) (hg : inGrid3 dimX dimY dimZ i j k) :
    (Proj_func3D P1 P2 P3 methTV dimX dimY dimZ).2.2 i j k =
      P3 i j k / (if |P3 i j k| < 1 then 1 else |P3 i j k|) := by
  unfold Proj_func3D
  rw [if_neg hm]
  show (if inGrid3 dimX dimY dimZ i j k then
    P3 i j k / (if |P3 i j k| < 1 then 1 else |P3 i j k|) else P3 i j k) = _
  rw [if_pos hg]

/-! ### Further loop lemmas and a 3D constant-input evaluation -/

lemma one_le_loop2D_iters (p : Params) (n : ℕ) (s : State2D) (h : 1 ≤ n) :
    1 ≤ (loop2D p n s).2 := by
  match n with
  | 0 => omega
  | m + 1 =>
    rw [loop2D_succ]
    split
    · exact le_refl 1
    · show 1 ≤ (loop2D p m (snapshot2D p (body2D p s))).2 + 1
      omega

lemma one_le_loop3D_iters (p : Params) (n : ℕ) (s : State3D) (h : 1 ≤ n) :
    1 ≤ (loop3D p n s).2 := by
  match n with
  | 0 => omega
  | m + 1 =>
    rw [loop3D_succ]
    split
    · exact le_refl 1
    · show 1 ≤ (loop3D p m (snapshot3D p (body3D p s))).2 + 1
      omega

lemma Obj_func3D_const (A D R1 R2 R3 : Im3) (lambda : ℝ) (dimX dimY dimZ : ℤ) (c : ℝ)
    (hA : ∀ i j k, inGrid3 dimX dimY dimZ i j k → A i j k = c)
    (hR1 : ∀ i j k, inGrid3 dimX dimY dimZ i j k → R1 i j k = 0)
    (hR2 : ∀ i j k, inGrid3 dimX dimY dimZ i j k → R2 i j k = 0)
    (hR3 : ∀ i j k, inGrid3 dimX dimY dimZ i j k → R3 i j k = 0)
    (i j k : ℤ) (hg : inGrid3 dimX dimY dimZ i j k) :
    Obj_func3D A D R1 R2 R3 lambda dimX dimY dimZ i j k = c := by
  obtain ⟨hi0, hix, hj0, hjy, hk0, hkz⟩ := hg
  unfold Obj_func3D
  rw [if_pos (⟨hi0, hix, hj0, hjy, hk0, hkz⟩ : inGrid3 dimX dimY dimZ i j k)]
  show A i j k - lambda * (R1 i j k + R2 i j k + R3 i j k
    - (if i = 0 then 0 else R1 (i - 1) j k)
    - (if j = 0 then 0 else R2 i (j - 1) k)
    - (if k = 0 then 0 else R3 i j (k - 1))) = c
  have h1 : (if i = 0 then (0:ℝ) else R1 (i - 1) j k) = 0 := by
    split
    · rfl
    · next hne => exact hR1 _ _ _ ⟨by omega, by omega, hj0, hjy, hk0, hkz⟩
  have h2 : (if j = 0 then (0:ℝ) else R2 i (j - 1) k) = 0 := by
    split
    · rfl
    · next hne => exact hR2 _ _ _ ⟨hi0, hix, by omega, by omega, hk0, hkz⟩
  have h3 : (if k = 0 then (0:ℝ) else R3 i j (k - 1)) = 0 := by
    split
    · rfl
    · next hne => exact hR3 _ _ _ ⟨hi0, hix, hj0, hjy, by omega, by omega⟩
  rw [h1, h2, h3, hR1 i j k ⟨hi0, hix, hj0, hjy, hk0, hkz⟩,
    hR2 i j k ⟨hi0, hix, hj0, hjy, hk0, hkz⟩, hR3 i j k ⟨hi0, hix, hj0, hjy, hk0, hkz⟩,
    hA i j k ⟨hi0, hix, hj0, hjy, hk0, hkz⟩]
  ring

/-! ### Concrete buffers and configurations for the executable scenarios -/

/-- The all-zero 2D buffer. -/
def zero2 : Im2 := fun _ _ => 0

/-- The constant-5.0 2D buffer of scenario A. -/
def five2 : Im2 := fun _ _ => 5

/-- A concrete choice of indeterminate `malloc` contents for the dual buffer
`R1`: the value 8 at flat index 0 and 0 elsewhere. -/
def gR12 : Im2 := fun i j => if i = 0 ∧ j = 0 then 8 else 0

/-- The all-zero 3D buffer. -/
def zero3 : Im3 := fun _ _ _ => 0

/-- Scenario A configuration: constant 2D input, `lambda = 1`, one iteration,
`epsil = 0`, anisotropic variant, nonnegativity off, 2x2 grid. -/
def pA : Params :=
  { lambda := 1, iter := 1, epsil := 0, methodTV := 1, nonneg := 0, printM := 0,
    dimX := 2, dimY := 2, dimZ := 1 }

/-- An invalid configuration: `lambda = -1 <= 0`, on a 1x1 grid. -/
def pBad : Params :=
  { lambda := -1, iter := 1, epsil := 0, methodTV := 1, nonneg := 0, printM := 0,
    dimX := 1, dimY := 1, dimZ := 1 }

/-- An invalid configuration: `dimX = 0`. -/
def pVal : Params :=
  { lambda := 1, iter := 1, epsil := 0, methodTV := 0, nonneg := 0, printM := 0,
    dimX := 0, dimY := 1, dimZ := 1 }

/-- A 1x1(x1) configuration with zero data, used to exercise the
zero-denominator stopping test. -/
def pZ : Params :=
  { lambda := 1, iter := 1, epsil := 1, methodTV := 1, nonneg := 0, printM := 0,
    dimX := 1, dimY := 1, dimZ := 1 }

/-- A 1x1(x1) configuration with the nonnegativity flag on. -/
def pN : Params :=
  { lambda := 1, iter := 1, epsil := 0, methodTV := 0, nonneg := 1, printM := 0,
    dimX := 1, dimY := 1, dimZ := 1 }

/-- A configuration with a non-positive iteration cap. -/
def pI0 : Params :=
  { lambda := 1, iter := 0, epsil := 0, methodTV := 0, nonneg := 0, printM := 0,
    dimX := 1, dimY := 1, dimZ := 1 }

/-- Scenario A configuration with the isotropic variant and two iterations. -/
def pC1w : Params :=
  { lambda := 1, iter := 2, epsil := 0, methodTV := 0, nonneg := 0, printM := 0,
    dimX := 2, dimY := 2, dimZ := 1 }

/-- The all-zero 2D entry store. -/
def sZ : State2D := init2D zero2 zero2 zero2 zero2 zero2 zero2 zero2 zero2 zero2

/-- The all-zero 3D entry store. -/
def sZ3 : State3D :=
  init3D zero3 zero3 zero3 zero3 zero3 zero3 zero3 zero3 zero3 zero3 zero3 zero3

lemma stepArrays_pZ_Output_zero (i j : ℤ) (hg : inGrid2 pZ.dimX pZ.dimY i j) :
    (stepArrays2D pZ sZ).Output i j = 0 := by
  rw [stepArrays2D_Output, if_neg (by decide : ¬ pZ.nonneg = 1)]
  exact Obj_func2D_const _ _ _ _ _ _ _ 0
    (fun _ _ _ => rfl) (fun _ _ _ => rfl) (fun _ _ _ => rfl) i j hg

lemma resDen2D_pZ_zero : resDen2D pZ (stepArrays2D pZ sZ) = 0 := by
  unfold resDen2D
  apply Finset.sum_eq_zero
  intro i hi
  apply Finset.sum_eq_zero
  intro j hj
  rw [Finset.mem_Ico] at hi hj
  rw [stepArrays_pZ_Output_zero i j ⟨hi.1, hi.2, hj.1, hj.2⟩]
  norm_num

lemma stepArrays_pZ3_Output_zero (i j k : ℤ) (hg : inGrid3 pZ.dimX pZ.dimY pZ.dimZ i j k) :
    (stepArrays3D pZ sZ3).Output i j k = 0 := by
  rw [stepArrays3D_Output, if_neg (by decide : ¬ pZ.nonneg = 1)]
  exact Obj_func3D_const _ _ _ _ _ _ _ _ _ 0
    (fun _ _ _ _ => rfl) (fun _ _ _ _ => rfl) (fun _ _ _ _ => rfl) (fun _ _ _ _ => rfl) i j k hg

lemma resDen3D_pZ_zero : resDen3D pZ (stepArrays3D pZ sZ3) = 0 := by
  unfold resDen3D
  apply Finset.sum_eq_zero
  intro i hi
  apply Finset.sum_eq_zero
  intro j hj
  apply Finset.sum_eq_zero
  intro k hk
  rw [Finset.mem_Ico] at hi hj hk
  rw [stepArrays_pZ3_Output_zero i j k ⟨hi.1, hi.2, hj.1, hj.2, hk.1, hk.2⟩]
  norm_num

lemma run_pA_garbage :
    (TV_FGP_CPU_2D pA five2 zero2 zero2 zero2 zero2 zero2 zero2 gR12 zero2).1.Output 0 0
      = -3 := by
  show (loop2D pA 1 (init2D five2 zero2 zero2 zero2 zero2 zero2 zero2 gR12 zero2)).1.Output 0 0
    = -3
  rw [loop2D_succ]
  have h0 : (init2D five2 zero2 zero2 zero2 zero2 zero2 zero2 gR12 zero2).count = 0 := rfl
  have hcnt := body2D_count_le pA (init2D five2 zero2 zero2 zero2 zero2 zero2 zero2 gR12 zero2)
  rw [if_neg (by omega)]
  rw [loop2D_zero]
  show (snapshot2D pA (body2D pA
    (init2D five2 zero2 zero2 zero2 zero2 zero2 zero2 gR12 zero2))).Output 0 0 = -3
  rw [snapshot2D_Output, body2D_Output, stepArrays2D_Output,
    if_neg (by decide : ¬ pA.nonneg = 1)]
  show Obj_func2D five2 zero2 gR12 zero2 pA.lambda pA.dimX pA.dimY 0 0 = -3
  unfold Obj_func2D
  rw [if_pos (by decide : inGrid2 pA.dimX pA.dimY 0 0)]
  show five2 0 0 - pA.lambda * (gR12 0 0 + zero2 0 0
    - (if (0:ℤ) = 0 then 0 else gR12 (0 - 1) 0)
    - (if (0:ℤ) = 0 then 0 else zero2 0 (0 - 1))) = -3
  norm_num [five2, gR12, zero2, pA]

lemma run_pA_zeroed :
    (TV_FGP_CPU_2D pA five2 zero2 zero2 zero2 zero2 zero2 zero2 zero2 zero2).1.Output 0 0
      = 5 := by
  have h := loop2D_const pA 5 (by decide) 1
    (init2D five2 zero2 zero2 zero2 zero2 zero2 zero2 zero2 zero2) (le_refl 1)
    ⟨fun _ _ _ => rfl, fun _ _ _ => rfl, fun _ _ _ => rfl, fun _ _ _ => rfl, fun _ _ _ => rfl⟩
    0 0 (by decide)
  exact h

lemma run_pBad_iters :
    (TV_FGP_CPU_2D pBad five2 zero2 zero2 zero2 zero2 zero2 zero2 zero2 zero2).2 = 1 := by
  have hle := loop2D_iters_le pBad 1
    (init2D five2 zero2 zero2 zero2 zero2 zero2 zero2 zero2 zero2)
  have hge := one_le_loop2D_iters pBad 1
    (init2D five2 zero2 zero2 zero2 zero2 zero2 zero2 zero2 zero2) (le_refl 1)
  show (loop2D pBad 1 (init2D five2 zero2 zero2 zero2 zero2 zero2 zero2 zero2 zero2)).2 = 1
  omega

lemma run_pBad_output :
    (TV_FGP_CPU_2D pBad five2 zero2 zero2 zero2 zero2 zero2 zero2 zero2 zero2).1.Output 0 0
      = 5 := by
  have h := loop2D_const pBad 5 (by decide) 1
    (init2D five2 zero2 zero2 zero2 zero2 zero2 zero2 zero2 zero2) (le_refl 1)
    ⟨fun _ _ _ => rfl, fun _ _ _ => rfl, fun _ _ _ => rfl, fun _ _ _ => rfl, fun _ _ _ => rfl⟩
    0 0 (by decide)
  exact h

/-! ## The claims -/

/-- C1, counterexample.  The claim fails on the code as written: the seven
scratch buffers are obtained from `malloc` (FGP_TV_core.c:53-59) and are never
zeroed, so the first `Obj_func2D` reads indeterminate contents.  With the
constant-5.0 input of scenario A, `lambda = 1`, one iteration, nonnegativity
off, and the dual buffer `R1` holding the (perfectly possible) malloc residue
`gR12` (8 at flat index 0), the output at position `(0, 0)` is
`5 - 1*8 = -3`, not 5. -/
theorem constant_input_fails_on_malloc_contents :
    (TV_FGP_CPU_2D pA five2 zero2 zero2 zero2 zero2 zero2 zero2 gR12 zero2).1.Output 0 0
      ≠ 5 := by
  rw [run_pA_garbage]
  norm_num

/-- C1, amended: *provided every scratch buffer starts zeroed* (which the
source does not itself guarantee, since it `malloc`s without initializing),
a constant-valued 2D input `c` with any `lambda`, any iteration count `>= 1`
and nonnegativity off is reproduced exactly: the output is `c` at every grid
position after every iteration (any fuel `n >= 1`) and at termination of the
2D path of `TV_FGP_CPU`. -/
theorem constant_input_invariance_zeroed_scratch
    (p : Params) (c : ℝ) (Input Output0 : Im2) (n : ℕ)
    (hl : 0 < p.lambda) (hnn : p.nonneg = 0) (hn : 1 ≤ n) (hiter : 1 ≤ p.iter)
    (hIn : ∀ i j, inGrid2 p.dimX p.dimY i j → Input i j = c) :
    (∀ i j, inGrid2 p.dimX p.dimY i j →
      (loop2D p n
        (init2D Input Output0 zero2 zero2 zero2 zero2 zero2 zero2 zero2)).1.Output i j = c) ∧
    (∀ i j, inGrid2 p.dimX p.dimY i j →
      (TV_FGP_CPU_2D p Input Output0
        zero2 zero2 zero2 zero2 zero2 zero2 zero2).1.Output i j = c) := by
  have hnn' : p.nonneg ≠ 1 := by rw [hnn]; decide
  have hinv : ConstInv p c (init2D Input Output0 zero2 zero2 zero2 zero2 zero2 zero2 zero2) :=
    ⟨hIn, fun _ _ _ => rfl, fun _ _ _ => rfl, fun _ _ _ => rfl, fun _ _ _ => rfl⟩
  refine ⟨loop2D_const p c hnn' n _ hn hinv, ?_⟩
  have h1 : 1 ≤ p.iter.toNat := by omega
  exact loop2D_const p c hnn' p.iter.toNat _ h1 hinv

/-- C1, witness: the amended statement at the concrete scenario-A input
(2x2 grid of 5.0, `lambda = 1`, two iterations, isotropic variant,
nonnegativity off, zeroed scratch). -/
theorem constant_input_invariance_zeroed_scratch_w :
    (∀ i j, inGrid2 pC1w.dimX pC1w.dimY i j →
      (loop2D pC1w 2
        (init2D five2 zero2 zero2 zero2 zero2 zero2 zero2 zero2 zero2)).1.Output i j = 5) ∧
    (∀ i j, inGrid2 pC1w.dimX pC1w.dimY i j →
      (TV_FGP_CPU_2D pC1w five2 zero2
        zero2 zero2 zero2 zero2 zero2 zero2 zero2).1.Output i j = 5) :=
  constant_input_invariance_zeroed_scratch pC1w 5 five2 zero2 2
    (by norm_num : (0:ℝ) < 1) rfl (by decide) (by decide : (1:ℤ) ≤ 2)
    (fun _ _ _ => rfl)

/-- C2: immediately after projection, at every in-grid position, the
isotropic variant (selector 0) leaves the Euclidean norm of the dual
components at most 1 and the anisotropic variant (any other selector) leaves
every component magnitude at most 1; positions (resp. components) already
inside the bound are unchanged.  Both the 2D and the 3D projection. -/
theorem projection_postcondition
    (P1 P2 : Im2) (T1 T2 T3 : Im3) (m dimX dimY dimZ i j k : ℤ)
    (hm : m ≠ 0) (hg2 : inGrid2 dimX dimY i j) (hg3 : inGrid3 dimX dimY dimZ i j k) :
    (Real.sqrt (((Proj_func2D P1 P2 0 dimX dimY).1 i j) ^ 2 +
        ((Proj_func2D P1 P2 0 dimX dimY).2 i j) ^ 2) ≤ 1) ∧
    (Real.sqrt ((P1 i j) ^ 2 + (P2 i j) ^ 2) ≤ 1 →
      (Proj_func2D P1 P2 0 dimX dimY).1 i j = P1 i j ∧
      (Proj_func2D P1 P2 0 dimX dimY).2 i j = P2 i j) ∧
    (|(Proj_func2D P1 P2 m dimX dimY).1 i j| ≤ 1) ∧
    (|(Proj_func2D P1 P2 m dimX dimY).2 i j| ≤ 1) ∧
    (|P1 i j| ≤ 1 → (Proj_func2D P1 P2 m dimX dimY).1 i j = P1 i j) ∧
    (|P2 i j| ≤ 1 → (Proj_func2D P1 P2 m dimX dimY).2 i j = P2 i j) ∧
    (Real.sqrt (((Proj_func3D T1 T2 T3 0 dimX dimY dimZ).1 i j k) ^ 2 +
        ((Proj_func3D T1 T2 T3 0 dimX dimY dimZ).2.1 i j k) ^ 2 +
        ((Proj_func3D T1 T2 T3 0 dimX dimY dimZ).2.2 i j k) ^ 2) ≤ 1) ∧
    (Real.sqrt ((T1 i j k) ^ 2 + (T2 i j k) ^ 2 + (T3 i j k) ^ 2) ≤ 1 →
      (Proj_func3D T1 T2 T3 0 dimX dimY dimZ).1 i j k = T1 i j k ∧
      (Proj_func3D T1 T2 T3 0 dimX dimY dimZ).2.1 i j k = T2 i j k ∧
      (Proj_func3D T1 T2 T3 0 dimX dimY dimZ).2.2 i j k = T3 i j k) ∧
    (|(Proj_func3D T1 T2 T3 m dimX dimY dimZ).1 i j k| ≤ 1 ∧
      |(Proj_func3D T1 T2 T3 m dimX dimY dimZ).2.1 i j k| ≤ 1 ∧
      |(Proj_func3D T1 T2 T3 m dimX dimY dimZ).2.2 i j k| ≤ 1) ∧
    ((|T1 i j k| ≤ 1 → (Proj_func3D T1 T2 T3 m dimX dimY dimZ).1 i j k = T1 i j k) ∧
      (|T2 i j k| ≤ 1 → (Proj_func3D T1 T2 T3 m dimX dimY dimZ).2.1 i j k = T2 i j k) ∧
      (|T3 i j k| ≤ 1 → (Proj_func3D T1 T2 T3 m dimX dimY dimZ).2.2 i j k = T3 i j k)) := by
  refine ⟨?_, ?_, ?_, ?_, ?_, ?_, ?_, ?_, ?_, ?_⟩
  · rw [Proj_func2D_iso_fst _ _ _ _ _ _ hg2, Proj_func2D_iso_snd _ _ _ _ _ _ hg2]
    by_cases hd : 1 < (P1 i j) ^ 2 + (P2 i j) ^ 2
    · rw [if_pos hd, if_pos hd, iso2_scaled_sumsq _ _ hd, Real.sqrt_one]
    · rw [if_neg hd, if_neg hd]
      exact Real.sqrt_le_one.2 (not_lt.1 hd)
  · intro hno
    have hd : ¬ 1 < (P1 i j) ^ 2 + (P2 i j) ^ 2 := by
      have := Real.sqrt_le_one.1 hno
      linarith
    refine ⟨?_, ?_⟩
    · rw [Proj_func2D_iso_fst _ _ _ _ _ _ hg2, if_neg hd]
    · rw [Proj_func2D_iso_snd _ _ _ _ _ _ hg2, if_neg hd]
  · rw [Proj_func2D_aniso_fst _ _ _ _ _ _ _ hm hg2]
    exact aniso_clip_abs_le _
  · rw [Proj_func2D_aniso_snd _ _ _ _ _ _ _ hm hg2]
    exact aniso_clip_abs_le _
  · intro h1
    rw [Proj_func2D_aniso_fst _ _ _ _ _ _ _ hm hg2]
    exact aniso_clip_eq_self _ h1
  · intro h2
    rw [Proj_func2D_aniso_snd _ _ _ _ _ _ _ hm hg2]
    exact aniso_clip_eq_self _ h2
  · rw [Proj_func3D_iso_fst _ _ _ _ _ _ _ _ _ hg3, Proj_func3D_iso_snd _ _ _ _ _ _ _ _ _ hg3,
      Proj_func3D_iso_thd _ _ _ _ _ _ _ _ _ hg3]
    by_cases hd : 1 < (T1 i j k) ^ 2 + (T2 i j k) ^ 2 + (T3 i j k) ^ 2
    · rw [if_pos hd, if_pos hd, if_pos hd, iso3_scaled_sumsq _ _ _ hd, Real.sqrt_one]
    · rw [if_neg hd, if_neg hd, if_neg hd]
      exact Real.sqrt_le_one.2 (not_lt.1 hd)
  · intro hno
    have hd : ¬ 1 < (T1 i j k) ^ 2 + (T2 i j k) ^ 2 + (T3 i j k) ^ 2 := by
      have := Real.sqrt_le_one.1 hno
      linarith
    refine ⟨?_, ?_, ?_⟩
    · rw [Proj_func3D_iso_fst _ _ _ _ _ _ _ _ _ hg3, if_neg hd]
    · rw [Proj_func3D_iso_snd _ _ _ _ _ _ _ _ _ hg3, if_neg hd]
    · rw [Proj_func3D_iso_thd _ _ _ _ _ _ _ _ _ hg3]
      rw [if_neg hd]
  · refine ⟨?_, ?_, ?_⟩
    · rw [Proj_func3D_aniso_fst _ _ _ _ _ _ _ _ _ _ hm hg3]
      exact aniso_clip_abs_le _
    · rw [Proj_func3D_aniso_snd _ _ _ _ _ _ _ _ _ _ hm hg3]
      exact aniso_clip_abs_le _
    · rw [Proj_func3D_aniso_thd _ _ _ _ _ _ _ _ _ _ hm hg3]
      exact aniso_clip_abs_le _
  · refine ⟨?_, ?_, ?_⟩
    · intro h1
      rw [Proj_func3D_aniso_fst _ _ _ _ _ _ _ _ _ _ hm hg3]
      exact aniso_clip_eq_self _ h1
    · intro h2
      rw [Proj_func3D_aniso_snd _ _ _ _ _ _ _ _ _ _ hm hg3]
      exact aniso_clip_eq_self _ h2
    · intro h3
      rw [Proj_func3D_aniso_thd _ _ _ _ _ _ _ _ _ _ hm hg3]
      exact aniso_clip_eq_self _ h3

/-- C2, witness: the projection postcondition at concrete dual values
(components 3 and 4 in 2D; 2, 3 and 6 in 3D) on a 1x1(x1) grid, anisotropic
selector 1. -/
theorem projection_postcondition_w :
    Real.sqrt (((Proj_func2D (fun _ _ => 3) (fun _ _ => 4) 0 1 1).1 0 0) ^ 2 +
      ((Proj_func2D (fun _ _ => 3) (fun _ _ => 4) 0 1 1).2 0 0) ^ 2) ≤ 1 :=
  (projection_postcondition (fun _ _ => 3) (fun _ _ => 4)
    (fun _ _ _ => 2) (fun _ _ _ => 3) (fun _ _ _ => 6) 1 1 1 1 0 0 0
    (by decide) (by decide) (by decide)).1

/-- C5: the claim that every element of the momentum-carried dual arrays
`R_d` is zero at call entry is wrong on this code: the buffers come straight
from `malloc` (FGP_TV_core.c:58-59) with no `calloc`/`memset`, so the first
iteration reads indeterminate contents.  Two runs that differ only in the
initial `R1` contents (the all-zero buffer vs the malloc residue `gR12`)
produce different outputs, so the entry contents of `R1` are observable. -/
theorem dual_arrays_not_zero_initialized :
    (TV_FGP_CPU_2D pA five2 zero2 zero2 zero2 zero2 zero2 zero2 gR12 zero2).1.Output 0 0
      ≠ (TV_FGP_CPU_2D pA five2 zero2 zero2 zero2 zero2 zero2 zero2 zero2 zero2).1.Output 0 0 := by
  rw [run_pA_garbage, run_pA_zeroed]
  norm_num

/-- C3: with the nonnegativity flag on (`nonneg == 1`), every in-grid Output
sample is nonnegative at the end of every driver-loop iteration (any fuel
`n >= 1`, any store — the clamp runs right after the gradient operator and no
later phase of the iteration writes Output) and at termination of both code
paths of `TV_FGP_CPU`. -/
theorem nonneg_flag_invariant (p : Params) (n : ℕ) (s2 : State2D) (s3 : State3D)
    (A O Op Q1 Q2 Q1p Q2p S1 S2 : Im2)
    (B T Tp U1 U2 U3 U1p U2p U3p V1 V2 V3 : Im3)
    (hnn : p.nonneg = 1) (hn : 1 ≤ n) (hiter : 1 ≤ p.iter) :
    (∀ i j, inGrid2 p.dimX p.dimY i j → 0 ≤ (loop2D p n s2).1.Output i j) ∧
    (∀ i j, inGrid2 p.dimX p.dimY i j →
      0 ≤ (TV_FGP_CPU_2D p A O Op Q1 Q2 Q1p Q2p S1 S2).1.Output i j) ∧
    (∀ i j k, inGrid3 p.dimX p.dimY p.dimZ i j k →
      0 ≤ (loop3D p n s3).1.Output i j k) ∧
    (∀ i j k, inGrid3 p.dimX p.dimY p.dimZ i j k →
      0 ≤ (TV_FGP_CPU_3D p B T Tp U1 U2 U3 U1p U2p U3p V1 V2 V3).1.Output i j k) := by
  have h1 : 1 ≤ p.iter.toNat := by omega
  refine ⟨fun i j hg => loop2D_Output_nonneg p hnn n s2 i j hn hg,
    fun i j hg => loop2D_Output_nonneg p hnn p.iter.toNat _ i j h1 hg,
    fun i j k hg => loop3D_Output_nonneg p hnn n s3 i j k hn hg,
    fun i j k hg => loop3D_Output_nonneg p hnn p.iter.toNat _ i j k h1 hg⟩

/-- C3, witness: the invariant at the concrete 1x1(x1) all-zero configuration
with the nonnegativity flag on, one iteration. -/
theorem nonneg_flag_invariant_w :
    (∀ i j, inGrid2 pN.dimX pN.dimY i j → 0 ≤ (loop2D pN 1 sZ).1.Output i j) ∧
    (∀ i j, inGrid2 pN.dimX pN.dimY i j →
      0 ≤ (TV_FGP_CPU_2D pN zero2 zero2 zero2 zero2 zero2 zero2 zero2 zero2
        zero2).1.Output i j) ∧
    (∀ i j k, inGrid3 pN.dimX pN.dimY pN.dimZ i j k →
      0 ≤ (loop3D pN 1 sZ3).1.Output i j k) ∧
    (∀ i j k, inGrid3 pN.dimX pN.dimY pN.dimZ i j k →
      0 ≤ (TV_FGP_CPU_3D pN zero3 zero3 zero3 zero3 zero3 zero3 zero3 zero3 zero3
        zero3 zero3 zero3).1.Output i j k) :=
  nonneg_flag_invariant pN 1 sZ sZ3 zero2 zero2 zero2 zero2 zero2 zero2 zero2 zero2 zero2
    zero3 zero3 zero3 zero3 zero3 zero3 zero3 zero3 zero3 zero3 zero3 zero3
    rfl (by decide) (by decide : (1:ℤ) ≤ 1)

/-- C4: the stopping counter is cumulative.  In both code paths:
an iteration whose residual test fires (`hit`) increments the counter by
exactly one and otherwise leaves it unchanged; the counter never decreases
over any number of iterations (it is never reset); the loop breaks early
(executes fewer iterations than its fuel) only when the final counter
exceeds 4; and every iteration before the breaking one ran with a counter
still at most 4 and without breaking — so the loop stops exactly at the end
of the first iteration whose check leaves the cumulative count above 4,
unless the iteration cap is exhausted first (the executed count never
exceeds the fuel, by C7's bound, restated here through
`loop2D_before_break`). -/
theorem stopping_counter_cumulative_no_reset (p : Params) (s2 : State2D) (s3 : State3D)
    (n : ℕ) :
    ((body2D p s2).count = if hit2D p (stepArrays2D p s2) then s2.count + 1 else s2.count) ∧
    ((body3D p s3).count = if hit3D p (stepArrays3D p s3) then s3.count + 1 else s3.count) ∧
    (s2.count ≤ (loop2D p n s2).1.count) ∧
    (s3.count ≤ (loop3D p n s3).1.count) ∧
    ((loop2D p n s2).2 < n → 4 < (loop2D p n s2).1.count) ∧
    ((loop3D p n s3).2 < n → 4 < (loop3D p n s3).1.count) ∧
    (∀ m, s2.count ≤ 4 → m < (loop2D p n s2).2 →
      (loop2D p m s2).2 = m ∧ (loop2D p m s2).1.count ≤ 4) ∧
    (∀ m, s3.count ≤ 4 → m < (loop3D p n s3).2 →
      (loop3D p m s3).2 = m ∧ (loop3D p m s3).1.count ≤ 4) :=
  ⟨body2D_count p s2, body3D_count p s3,
    loop2D_count_mono p n s2, loop3D_count_mono p n s3,
    loop2D_stops_at_first p n s2, loop3D_stops_at_first p n s3,
    fun m hc hm => loop2D_before_break p m n s2 hc hm,
    fun m hc hm => loop3D_before_break p m n s3 hc hm⟩

/-- C6, counterexample.  The claim that `TV_FGP_CPU` rejects an invalid
configuration with a descriptive error is wrong on this code: the function
body (FGP_TV_core.c:40-48) contains no validation of `lambda`, the grid
extents or the iteration cap and has no error channel at all.  With the
invalid `lambda = -1 <= 0` the call executes a full driver iteration and
writes the Output buffer (the 1x1 run turns the entry value 0 into 5)
instead of rejecting. -/
theorem invalid_configuration_still_computes :
    (TV_FGP_CPU_2D pBad five2 zero2 zero2 zero2 zero2 zero2 zero2 zero2 zero2).2 = 1 ∧
    (TV_FGP_CPU_2D pBad five2 zero2 zero2 zero2 zero2 zero2 zero2 zero2 zero2).1.Output 0 0
      = 5 ∧
    (TV_FGP_CPU_2D pBad five2 zero2 zero2 zero2 zero2 zero2 zero2 zero2 zero2).1.Output 0 0
      ≠ zero2 0 0 := by
  refine ⟨run_pBad_iters, run_pBad_output, ?_⟩
  rw [run_pBad_output]
  show (5:ℝ) ≠ 0
  norm_num

/-- C6, amended: `TV_FGP_CPU` performs no validation whatsoever — a call
with `lambda <= 0` or a non-positive grid extent is not rejected and no
error is signalled; as long as the iteration cap is at least 1 the driver
loop still executes at least one full iteration on both code paths (and with
a non-positive cap it silently runs zero iterations, see C10). -/
theorem no_validation_rejects_nothing (p : Params)
    (hinv : p.lambda ≤ 0 ∨ p.dimX ≤ 0 ∨ p.dimY ≤ 0) (hiter : 1 ≤ p.iter)
    (A O Op Q1 Q2 Q1p Q2p S1 S2 : Im2)
    (B T Tp U1 U2 U3 U1p U2p U3p V1 V2 V3 : Im3) :
    1 ≤ (TV_FGP_CPU_2D p A O Op Q1 Q2 Q1p Q2p S1 S2).2 ∧
    1 ≤ (TV_FGP_CPU_3D p B T Tp U1 U2 U3 U1p U2p U3p V1 V2 V3).2 := by
  have h1 : 1 ≤ p.iter.toNat := by omega
  exact ⟨one_le_loop2D_iters p p.iter.toNat _ h1, one_le_loop3D_iters p p.iter.toNat _ h1⟩

/-- C6, witness: the amended statement at the invalid configuration with
`dimX = 0`. -/
theorem no_validation_rejects_nothing_w :
    1 ≤ (TV_FGP_CPU_2D pVal zero2 zero2 zero2 zero2 zero2 zero2 zero2 zero2 zero2).2 ∧
    1 ≤ (TV_FGP_CPU_3D pVal zero3 zero3 zero3 zero3 zero3 zero3 zero3 zero3 zero3
      zero3 zero3 zero3).2 :=
  no_validation_rejects_nothing pVal (Or.inr (Or.inl (by decide))) (by decide : (1:ℤ) ≤ 1)
    zero2 zero2 zero2 zero2 zero2 zero2 zero2 zero2 zero2
    zero3 zero3 zero3 zero3 zero3 zero3 zero3 zero3 zero3 zero3 zero3 zero3

/-- C7: the driver loop executes at most its fuel (the iteration cap) on
both code paths, and with `epsil = 0` it never stops early: the embedded
residual is a quotient of square roots, hence nonnegative, so `re < 0` never
holds, the counter stays at its entry value 0, and the loop runs for exactly
the cap number of iterations. -/
theorem iteration_cap_and_zero_epsilon_full_run (p : Params) (n : ℕ)
    (s2 : State2D) (s3 : State3D)
    (A O Op Q1 Q2 Q1p Q2p S1 S2 : Im2)
    (B T Tp U1 U2 U3 U1p U2p U3p V1 V2 V3 : Im3) :
    ((loop2D p n s2).2 ≤ n) ∧
    ((loop3D p n s3).2 ≤ n) ∧
    ((TV_FGP_CPU_2D p A O Op Q1 Q2 Q1p Q2p S1 S2).2 ≤ p.iter.toNat) ∧
    ((TV_FGP_CPU_3D p B T Tp U1 U2 U3 U1p U2p U3p V1 V2 V3).2 ≤ p.iter.toNat) ∧
    (p.epsil = 0 →
      (TV_FGP_CPU_2D p A O Op Q1 Q2 Q1p Q2p S1 S2).2 = p.iter.toNat ∧
      (TV_FGP_CPU_2D p A O Op Q1 Q2 Q1p Q2p S1 S2).1.count = 0 ∧
      (TV_FGP_CPU_3D p B T Tp U1 U2 U3 U1p U2p U3p V1 V2 V3).2 = p.iter.toNat ∧
      (TV_FGP_CPU_3D p B T Tp U1 U2 U3 U1p U2p U3p V1 V2 V3).1.count = 0) := by
  refine ⟨loop2D_iters_le p n s2, loop3D_iters_le p n s3,
    loop2D_iters_le p p.iter.toNat _, loop3D_iters_le p p.iter.toNat _, ?_⟩
  intro he
  have he' : p.epsil ≤ 0 := le_of_eq he
  obtain ⟨h2a, h2b⟩ := loop2D_epsil_nonpos p he' p.iter.toNat
    (init2D A O Op Q1 Q2 Q1p Q2p S1 S2) (by decide : (0:ℤ) ≤ 4)
  obtain ⟨h3a, h3b⟩ := loop3D_epsil_nonpos p he' p.iter.toNat
    (init3D B T Tp U1 U2 U3 U1p U2p U3p V1 V2 V3) (by decide : (0:ℤ) ≤ 4)
  exact ⟨h2a, h2b, h3a, h3b⟩

/-- C8: on any iteration whose freshly computed Output has a zero sum of
squares (the denominator of the relative residual is exactly zero), the
stopping check is suppressed: the counter is not incremented (under IEEE
semantics `sqrt(re)/0` is `+Inf` or `NaN` and compares false against
`epsil`), and — the counter still being at most 4 — the loop does not break
and continues with the snapshot phase and the next iteration.  Both code
paths. -/
theorem zero_denominator_suppresses_stopping (p : Params) (s2 : State2D) (s3 : State3D)
    (n : ℕ)
    (h2 : resDen2D p (stepArrays2D p s2) = 0) (h3 : resDen3D p (stepArrays3D p s3) = 0)
    (hc2 : s2.count ≤ 4) (hc3 : s3.count ≤ 4) :
    ((body2D p s2).count = s2.count) ∧
    (loop2D p (n + 1) s2 = ((loop2D p n (snapshot2D p (body2D p s2))).1,
      (loop2D p n (snapshot2D p (body2D p s2))).2 + 1)) ∧
    ((body3D p s3).count = s3.count) ∧
    (loop3D p (n + 1) s3 = ((loop3D p n (snapshot3D p (body3D p s3))).1,
      (loop3D p n (snapshot3D p (body3D p s3))).2 + 1)) := by
  have hb2 : (body2D p s2).count = s2.count := by
    rw [body2D_count, if_neg (not_hit2D_of_resDen_zero p _ h2)]
  have hb3 : (body3D p s3).count = s3.count := by
    rw [body3D_count, if_neg (not_hit3D_of_resDen_zero p _ h3)]
  refine ⟨hb2, ?_, hb3, ?_⟩
  · rw [loop2D_succ, if_neg (by omega)]
  · rw [loop3D_succ, if_neg (by omega)]

/-- C8, witness: the zero-denominator suppression on the concrete 1x1(x1)
all-zero data (whose computed Output is identically zero, so the denominator
sum vanishes). -/
theorem zero_denominator_suppresses_stopping_w :
    ((body2D pZ sZ).count = sZ.count) ∧
    (loop2D pZ 1 sZ = ((loop2D pZ 0 (snapshot2D pZ (body2D pZ sZ))).1,
      (loop2D pZ 0 (snapshot2D pZ (body2D pZ sZ))).2 + 1)) ∧
    ((body3D pZ sZ3).count = sZ3.count) ∧
    (loop3D pZ 1 sZ3 = ((loop3D pZ 0 (snapshot3D pZ (body3D pZ sZ3))).1,
      (loop3D pZ 0 (snapshot3D pZ (body3D pZ sZ3))).2 + 1)) :=
  zero_denominator_suppresses_stopping pZ sZ sZ3 0
    resDen2D_pZ_zero resDen3D_pZ_zero
    (by decide : (0:ℤ) ≤ 4) (by decide : (0:ℤ) ≤ 4)

/-- C9: the Input sample buffer is only read, never written: every phase of
the embedded driver (array update, counter update, snapshot), every number
of loop iterations and the full calls on both code paths leave the Input
component of the store exactly as it was at entry. -/
theorem input_buffer_immutable (p : Params) (n : ℕ) (s2 : State2D) (s3 : State3D)
    (A O Op Q1 Q2 Q1p Q2p S1 S2 : Im2)
    (B T Tp U1 U2 U3 U1p U2p U3p V1 V2 V3 : Im3) :
    ((stepArrays2D p s2).Input = s2.Input) ∧
    ((body2D p s2).Input = s2.Input) ∧
    ((snapshot2D p s2).Input = s2.Input) ∧
    ((loop2D p n s2).1.Input = s2.Input) ∧
    ((TV_FGP_CPU_2D p A O Op Q1 Q2 Q1p Q2p S1 S2).1.Input = A) ∧
    ((stepArrays3D p s3).Input = s3.Input) ∧
    ((body3D p s3).Input = s3.Input) ∧
    ((snapshot3D p s3).Input = s3.Input) ∧
    ((loop3D p n s3).1.Input = s3.Input) ∧
    ((TV_FGP_CPU_3D p B T Tp U1 U2 U3 U1p U2p U3p V1 V2 V3).1.Input = B) :=
  ⟨stepArrays2D_Input p s2, body2D_Input p s2, snapshot2D_Input p s2, loop2D_Input p n s2,
    loop2D_Input p p.iter.toNat _,
    stepArrays3D_Input p s3, body3D_Input p s3, snapshot3D_Input p s3, loop3D_Input p n s3,
    loop3D_Input p p.iter.toNat _⟩

/-- C10: with a non-positive iteration cap the driver loop body never runs:
the call returns the entry store unchanged with zero iterations executed, the
Output buffer holds exactly its entry contents, and the returned value is the
entry Output's first element.  Both code paths. -/
theorem nonpositive_iter_leaves_output_untouched (p : Params) (h : p.iter ≤ 0)
    (A O Op Q1 Q2 Q1p Q2p S1 S2 : Im2)
    (B T Tp U1 U2 U3 U1p U2p U3p V1 V2 V3 : Im3) :
    (TV_FGP_CPU_2D p A O Op Q1 Q2 Q1p Q2p S1 S2
      = (init2D A O Op Q1 Q2 Q1p Q2p S1 S2, 0)) ∧
    ((TV_FGP_CPU_2D p A O Op Q1 Q2 Q1p Q2p S1 S2).1.Output = O) ∧
    (TV_FGP_CPU_2D_ret p A O Op Q1 Q2 Q1p Q2p S1 S2 = O 0 0) ∧
    (TV_FGP_CPU_3D p B T Tp U1 U2 U3 U1p U2p U3p V1 V2 V3
      = (init3D B T Tp U1 U2 U3 U1p U2p U3p V1 V2 V3, 0)) ∧
    ((TV_FGP_CPU_3D p B T Tp U1 U2 U3 U1p U2p U3p V1 V2 V3).1.Output = T) ∧
    (TV_FGP_CPU_3D_ret p B T Tp U1 U2 U3 U1p U2p U3p V1 V2 V3 = T 0 0 0) := by
  have h0 : p.iter.toNat = 0 := by omega
  have h2 : TV_FGP_CPU_2D p A O Op Q1 Q2 Q1p Q2p S1 S2
      = (init2D A O Op Q1 Q2 Q1p Q2p S1 S2, 0) := by
    show loop2D p p.iter.toNat (init2D A O Op Q1 Q2 Q1p Q2p S1 S2) = _
    rw [h0, loop2D_zero]
  have h3 : TV_FGP_CPU_3D p B T Tp U1 U2 U3 U1p U2p U3p V1 V2 V3
      = (init3D B T Tp U1 U2 U3 U1p U2p U3p V1 V2 V3, 0) := by
    show loop3D p p.iter.toNat (init3D B T Tp U1 U2 U3 U1p U2p U3p V1 V2 V3) = _
    rw [h0, loop3D_zero]
  refine ⟨h2, by rw [h2]; rfl, ?_, h3, by rw [h3]; rfl, ?_⟩
  · show (TV_FGP_CPU_2D p A O Op Q1 Q2 Q1p Q2p S1 S2).1.Output 0 0 = O 0 0
    rw [h2]
    rfl
  · show (TV_FGP_CPU_3D p B T Tp U1 U2 U3 U1p U2p U3p V1 V2 V3).1.Output 0 0 0 = T 0 0 0
    rw [h3]
    rfl

/-- C10, witness: the untouched-Output statement at the concrete
configuration with iteration cap 0 and all-zero buffers. -/
theorem nonpositive_iter_leaves_output_untouched_w :
    (TV_FGP_CPU_2D pI0 zero2 zero2 zero2 zero2 zero2 zero2 zero2 zero2 zero2
      = (init2D zero2 zero2 zero2 zero2 zero2 zero2 zero2 zero2 zero2, 0)) ∧
    ((TV_FGP_CPU_2D pI0 zero2 zero2 zero2 zero2 zero2 zero2 zero2 zero2 zero2).1.Output
      = zero2) ∧
    (TV_FGP_CPU_2D_ret pI0 zero2 zero2 zero2 zero2 zero2 zero2 zero2 zero2 zero2
      = zero2 0 0) ∧
    (TV_FGP_CPU_3D pI0 zero3 zero3 zero3 zero3 zero3 zero3 zero3 zero3 zero3
        zero3 zero3 zero3
      = (init3D zero3 zero3 zero3 zero3 zero3 zero3 zero3 zero3 zero3 zero3 zero3 zero3, 0)) ∧
    ((TV_FGP_CPU_3D pI0 zero3 zero3 zero3 zero3 zero3 zero3 zero3 zero3 zero3
        zero3 zero3 zero3).1.Output = zero3) ∧
    (TV_FGP_CPU_3D_ret pI0 zero3 zero3 zero3 zero3 zero3 zero3 zero3 zero3 zero3
        zero3 zero3 zero3
      = zero3 0 0 0) :=
  nonpositive_iter_leaves_output_untouched pI0 (by decide : pI0.iter ≤ 0)
    zero2 zero2 zero2 zero2 zero2 zero2 zero2 zero2 zero2
    zero3 zero3 zero3 zero3 zero3 zero3 zero3 zero3 zero3 zero3 zero3 zero3

end FGPTV
